import Mathlib

/-!
Shallow embedding of the ascent-guidance core of the Rocket-MIT-PORTFOLIO
repository: the guidance controller (src/js/guidance.js), the static
configuration (src/unnamed/part_000, i.e. constants.js) and the anomaly
solvers, burn scheduler and event forecaster (src/unnamed/part_001, i.e.
events.js).

Modelling conventions:
* JavaScript floating-point numbers are idealised as real numbers.
* The external physics/state collaborators that are not part of this
  repository slice (getAtmosphericDensity, getAirspeed, getGravity,
  getTotalMass, computeRemainingDeltaV, predictOrbit, getAltitude,
  getMassFlowRate, getCurrentThrust, getDrag) supply scalar quantities
  only (see the spec, sections 1 and 6); they are modelled as per-tick
  oracle inputs collected in the `Env` structure and quantified
  universally in the theorems.
* The JavaScript value `Infinity`, used as the "never reachable"
  sentinel of the time solvers, is modelled by `Option ℝ` with `none`
  standing for a non-finite result; `isFinite` checks become `Option`
  matches.
* `Real.sqrt` returns 0 on negative arguments where JavaScript would
  produce NaN; no claim depends on such inputs.
* The mutable module state (guidanceState and the two latched burn
  timestamps) is passed and returned explicitly.
-/

noncomputable section

namespace Rocket

/-- 2D vector. -/
structure Vec2 where
  x : ℝ
  y : ℝ

/-- Osculating orbital elements as produced by the external predictOrbit. -/
structure Orbit where
  semiMajorAxis : ℝ
  eccentricity : ℝ
  apoapsis : ℝ
  periapsis : ℝ
  isEscape : Bool

/-- The external simulation state object (read-only for this core).
`karmanLogged` models the check whether the events log already contains a
Kármán-line entry. -/
structure VehicleState where
  x : ℝ
  y : ℝ
  vx : ℝ
  vy : ℝ
  time : ℝ
  currentStage : ℕ
  engineOn : Bool
  burnMode : Option String
  guidancePitch : Option ℝ
  guidanceThrottle : Option ℝ
  propellantRemaining : ℕ → ℝ
  fairingJettisoned : Bool
  karmanLogged : Bool

/-- guidanceState from src/js/guidance.js. -/
structure GuidanceState where
  phase : String
  lastCommandedPitch : ℝ
  throttle : ℝ
  lastFlightPathAngle : ℝ
  lastPeriapsis : ℝ
  lastApoapsis : ℝ
  isRetrograde : Bool
  circularizationBurnStarted : Bool
  retrogradeBurnStarted : Bool

/-- GUIDANCE_CONFIG fields from src/unnamed/part_000. -/
structure GuidanceConfig where
  targetAltitude : ℝ
  atmosphereLimit : ℝ
  maxQ : ℝ
  maxPitchCorrection : ℝ
  maxPitchRate : ℝ
  throttleDownMargin : ℝ
  minThrottle : ℝ
  initialPitch : ℝ
  pitchKickStart : ℝ
  pitchKickEnd : ℝ

/-- Per-tick scalar outputs of the external physics/propulsion model. -/
structure Env where
  airDensity : ℝ
  airspeed : ℝ
  gravity : ℝ
  totalMass : ℝ
  remainingDeltaV : ℝ
  orbit : Orbit
  altitude : ℝ
  massFlowRate : ℝ
  currentThrust : ℝ
  drag : ℝ

/-- One rocket stage (src/unnamed/part_000). -/
structure Stage where
  dryMass : ℝ
  propellantMass : ℝ
  thrust : ℝ
  thrustVac : ℝ
  isp : ℝ
  ispVac : ℝ
  diameter : ℝ
  stageLength : ℝ
  dragCoeff : ℝ

structure RocketConfig where
  stages : List Stage
  payload : ℝ
  fairingMass : ℝ
  fairingJettisonAlt : ℝ
  totalLength : ℝ

def G : ℝ := 6.67430e-11

def EARTH_MASS : ℝ := 5.972e24

def EARTH_RADIUS : ℝ := 6.371e6

def KARMAN_LINE : ℝ := 100000

def ROCKET_CONFIG : RocketConfig :=
  { stages :=
      [⟨22200, 395700, 7607000, 8227000, 282, 311, 3.7, 47, 0.3⟩,
       ⟨4000, 92670, 981000, 981000, 348, 348, 3.7, 14, 0.25⟩],
    payload := 15000,
    fairingMass := 1700,
    fairingJettisonAlt := 110000,
    totalLength := 70 }

def GUIDANCE_CONFIG : GuidanceConfig :=
  { targetAltitude := 700000,
    atmosphereLimit := 70000,
    maxQ := 35000,
    maxPitchCorrection := 10,
    maxPitchRate := 2,
    throttleDownMargin := 1.15,
    minThrottle := 0.4,
    initialPitch := 85,
    pitchKickStart := 3,
    pitchKickEnd := 15 }

/-- `ROCKET_CONFIG.stages[i]`; all accesses in the source are guarded by
`currentStage < stages.length`. -/
def stageAt (i : ℕ) : Stage := ROCKET_CONFIG.stages.getD i ⟨0, 0, 0, 0, 0, 0, 0, 0, 0⟩

/-- JavaScript Math.sign. -/
def jsSign (x : ℝ) : ℝ := if 0 < x then 1 else if x < 0 then -1 else 0

/-- JavaScript Math.atan2 on real inputs. -/
def atan2 (y x : ℝ) : ℝ :=
  if 0 < x then Real.arctan (y / x)
  else if x < 0 then
    if 0 ≤ y then Real.arctan (y / x) + Real.pi else Real.arctan (y / x) - Real.pi
  else if 0 < y then Real.pi / 2
  else if y < 0 then -(Real.pi / 2)
  else 0

/-- r = sqrt(x² + y²) (guidance.js line 44). -/
def rOf (st : VehicleState) : ℝ := Real.sqrt (st.x * st.x + st.y * st.y)

def altitudeOf (st : VehicleState) : ℝ := rOf st - EARTH_RADIUS

def velocityOf (st : VehicleState) : ℝ := Real.sqrt (st.vx * st.vx + st.vy * st.vy)

def localUpOf (st : VehicleState) : Vec2 := ⟨st.x / rOf st, st.y / rOf st⟩

def localEastOf (st : VehicleState) : Vec2 := ⟨(localUpOf st).y, -(localUpOf st).x⟩

def vVerticalOf (st : VehicleState) : ℝ :=
  st.vx * (localUpOf st).x + st.vy * (localUpOf st).y

def vHorizontalOf (st : VehicleState) : ℝ :=
  st.vx * (localEastOf st).x + st.vy * (localEastOf st).y

/-- Flight path angle in degrees (guidance.js line 58). -/
def flightPathAngleOf (st : VehicleState) : ℝ :=
  atan2 (vVerticalOf st) (vHorizontalOf st) * 180 / Real.pi

/-!  Anomaly solvers (src/unnamed/part_001).  `none` models `Infinity`. -/

/-- calculateTimeToApoapsis (src/unnamed/part_001, lines 35-101). -/
def calculateTimeToApoapsis (orbit : Orbit) (st : VehicleState) (mu : ℝ) : Option ℝ :=
  if orbit.isEscape = true ∨ orbit.eccentricity ≥ 1 ∨ orbit.semiMajorAxis ≤ 0 then none
  else
    let e := orbit.eccentricity
    let a := orbit.semiMajorAxis
    if e < 1e-6 then
      let T := 2 * Real.pi * Real.sqrt (a * a * a / mu)
      some (T / 2)
    else
      let r := Real.sqrt (st.x * st.x + st.y * st.y)
      let p := a * (1 - e * e)
      let cosTheta0 := (p / r - 1) / e
      -- the source clamps once inside the diagnostic branch and once
      -- unconditionally; the composition equals a single clamp
      let cosTheta1 := if |cosTheta0| > 1.001 then max (-1) (min 1 cosTheta0) else cosTheta0
      let cosTheta := max (-1) (min 1 cosTheta1)
      let rDotV := st.x * st.vx + st.y * st.vy
      let theta :=
        if rDotV ≥ 0 then Real.arccos cosTheta else 2 * Real.pi - Real.arccos cosTheta
      let tanHalfTheta := Real.tan (theta / 2)
      let tanHalfE := Real.sqrt ((1 - e) / (1 + e)) * tanHalfTheta
      let E0 := 2 * Real.arctan tanHalfE
      let E1 := if E0 < 0 then E0 + 2 * Real.pi else E0
      let M := E1 - e * Real.sin E1
      let T := 2 * Real.pi * Real.sqrt (a * a * a / mu)
      if M ≤ Real.pi then some ((Real.pi - M) / (2 * Real.pi) * T)
      else some ((2 * Real.pi + Real.pi - M) / (2 * Real.pi) * T)

/-- calculateTimeToPeriapsis (src/unnamed/part_001, lines 111-170).  Both
arms of the final conditional of the source carry the same formula; the
conditional is preserved. -/
def calculateTimeToPeriapsis (orbit : Orbit) (st : VehicleState) (mu : ℝ) : Option ℝ :=
  if orbit.isEscape = true ∨ orbit.eccentricity ≥ 1 ∨ orbit.semiMajorAxis ≤ 0 then none
  else
    let e := orbit.eccentricity
    let a := orbit.semiMajorAxis
    if e < 1e-6 then
      let T := 2 * Real.pi * Real.sqrt (a * a * a / mu)
      some (T / 2)
    else
      let r := Real.sqrt (st.x * st.x + st.y * st.y)
      let p := a * (1 - e * e)
      let cosTheta := max (-1) (min 1 ((p / r - 1) / e))
      let rDotV := st.x * st.vx + st.y * st.vy
      let theta :=
        if rDotV ≥ 0 then Real.arccos cosTheta else 2 * Real.pi - Real.arccos cosTheta
      let tanHalfTheta := Real.tan (theta / 2)
      let tanHalfE := Real.sqrt ((1 - e) / (1 + e)) * tanHalfTheta
      let E0 := 2 * Real.arctan tanHalfE
      let E1 := if E0 < 0 then E0 + 2 * Real.pi else E0
      let M := E1 - e * Real.sin E1
      let T := 2 * Real.pi * Real.sqrt (a * a * a / mu)
      if theta < Real.pi then some ((2 * Real.pi - M) / (2 * Real.pi) * T)
      else some ((2 * Real.pi - M) / (2 * Real.pi) * T)

/-- calculateTimeToAltitude (src/unnamed/part_001, lines 182-273).
Kinematic threshold-crossing forecast under the current net vertical
acceleration; the throttle argument of the external getCurrentThrust is
absorbed by the `Env.currentThrust` oracle. -/
def calculateTimeToAltitude (env : Env) (st : VehicleState)
    (currentAltitude targetAltitude vVert : ℝ) : Option ℝ :=
  let altitudeDiff := targetAltitude - currentAltitude
  if altitudeDiff ≤ 0 then none
  else if vVert ≤ 0 then none
  else
    let r := Real.sqrt (st.x * st.x + st.y * st.y)
    let localUp : Vec2 := ⟨st.x / r, st.y / r⟩
    let gVert := -env.gravity
    let thrustVert :=
      if st.engineOn = true ∧ st.currentStage < ROCKET_CONFIG.stages.length then
        let thrustAccel := env.currentThrust / env.totalMass
        let velocity := Real.sqrt (st.vx * st.vx + st.vy * st.vy)
        let thrustDir : Vec2 :=
          match st.burnMode with
          | some mode =>
            if velocity > 0 then
              let prograde : Vec2 := ⟨st.vx / velocity, st.vy / velocity⟩
              if mode = "prograde" then prograde
              else if mode = "retrograde" then ⟨-prograde.x, -prograde.y⟩
              else prograde
            else localUp
          | none =>
            let pitch := st.guidancePitch.getD 90
            let pitchRad := pitch * Real.pi / 180
            let localEast : Vec2 := ⟨localUp.y, -localUp.x⟩
            ⟨Real.cos pitchRad * localEast.x + Real.sin pitchRad * localUp.x,
             Real.cos pitchRad * localEast.y + Real.sin pitchRad * localUp.y⟩
        thrustAccel * (thrustDir.x * localUp.x + thrustDir.y * localUp.y)
      else 0
    let dragVert :=
      if env.airspeed > 0 then
        let dragAccel := env.drag / env.totalMass
        let velocity := Real.sqrt (st.vx * st.vx + st.vy * st.vy)
        if velocity > 0 then
          let velDir : Vec2 := ⟨st.vx / velocity, st.vy / velocity⟩
          dragAccel * (-(velDir.x * localUp.x + velDir.y * localUp.y))
        else 0
      else 0
    let aVert := gVert + thrustVert + dragVert
    if |aVert| < 0.01 then some (altitudeDiff / vVert)
    else
      let disc := vVert * vVert + 2 * aVert * altitudeDiff
      if disc < 0 then none
      else
        let t := (-vVert + Real.sqrt disc) / aVert
        if t > 0 then some t else none

/-!  Guidance controller (src/js/guidance.js). -/

/-- The initial / reset guidanceState (guidance.js lines 8-33). -/
def resetGuidance : GuidanceState :=
  { phase := "pre-launch",
    lastCommandedPitch := 90,
    throttle := 1,
    lastFlightPathAngle := 90,
    lastPeriapsis := 0,
    lastApoapsis := 0,
    isRetrograde := false,
    circularizationBurnStarted := false,
    retrogradeBurnStarted := false }

/-- Starting flight-path angle of the vacuum pitch profile
(guidance.js line 330). -/
def startingFPAOf (targetAltitude atmosphereLimit : ℝ) : ℝ :=
  max 10 (min 50 (10 + (targetAltitude - atmosphereLimit) / 50000))

/-- Modelled from the spec: the starting flight-path angle as described by
the documentation of guidance.js lines 314-328 ("+1° per 15km of target
above atmosphere", clamped to 10°-50°), which the spec sentence for C6
restates.  Kept separate from `startingFPAOf`, which is the translation of
the executed line 330. -/
def startingFPADocumented (targetAltitude atmosphereLimit : ℝ) : ℝ :=
  max 10 (min 50 (10 + (targetAltitude - atmosphereLimit) / 15000))

/-- Atmospheric branch of computeGuidance (guidance.js lines 100-239):
(phase, commanded pitch before the global constraints, commanded throttle,
successor guidanceState).  The throttle component is the 1.0 that
commandedThrottle is initialised to and that no atmospheric sub-case
changes. -/
def atmosphericGuidance (cfg : GuidanceConfig) (env : Env) (st : VehicleState)
    (dt : ℝ) (gs : GuidanceState) : String × ℝ × ℝ × GuidanceState :=
  if st.time < cfg.pitchKickStart then ("vertical-ascent", 90, 1, gs)
  else if st.time < cfg.pitchKickEnd then
    let progress := (st.time - cfg.pitchKickStart) / (cfg.pitchKickEnd - cfg.pitchKickStart)
    let smoothProgress := (1 - Real.cos (progress * Real.pi)) / 2
    ("pitch-kick", 90 - smoothProgress * (90 - cfg.initialPitch), 1, gs)
  else
    let dynamicPressure := 0.5 * env.airDensity * env.airspeed * env.airspeed
    if dynamicPressure > cfg.maxQ * 0.8 then
      ("max-q-protection", flightPathAngleOf st, 1, gs)
    else
      let altitude := altitudeOf st
      let flightPathAngle := flightPathAngleOf st
      let altitudeFraction := min 1 (altitude / cfg.atmosphereLimit)
      let minPitchForAltitude := 90 - altitudeFraction * altitudeFraction * 80
      let basePitch := flightPathAngle
      let gamma := flightPathAngle * Real.pi / 180
      let naturalTurnRate := env.gravity * Real.cos gamma / velocityOf st * 180 / Real.pi
      let actualTurnRate := if dt > 0 then (gs.lastFlightPathAngle - flightPathAngle) / dt else 0
      let gs1 := { gs with lastFlightPathAngle := flightPathAngle }
      let turnRateExcess := actualTurnRate - naturalTurnRate
      let correction1 := if turnRateExcess > 0.5 then min 5 (turnRateExcess * 2) else 0
      let correction2 :=
        if basePitch + correction1 < minPitchForAltitude then
          correction1 + (minPitchForAltitude - (basePitch + correction1)) * 0.3
        else correction1
      let targetAboveAtmo := cfg.targetAltitude - cfg.atmosphereLimit
      let minVVerticalAtExit := 200 + targetAboveAtmo / 1000 * 0.5
      let proximityToExit := max 0 ((altitude - 50000) / 20000)
      let currentMinVVertical := minVVerticalAtExit * proximityToExit
      let vVertical := vVerticalOf st
      let correction3 :=
        if proximityToExit > 0.3 ∧ vVertical < currentMinVVertical then
          let vVerticalCorrection := min 15 ((currentMinVVertical - vVertical) / 20)
          if vVerticalCorrection > 2 then correction2 + vVerticalCorrection else correction2
        else correction2
      ("atmospheric-ascent", max minPitchForAltitude (basePitch + correction3), 1, gs1)

/-- Vacuum branch of computeGuidance (guidance.js lines 246-713):
(phase, pitch after the branch-local [-5, 90] clamp of line 710, throttle,
successor guidanceState). -/
def vacuumGuidance (cfg : GuidanceConfig) (env : Env) (st : VehicleState)
    (dt : ℝ) (gs : GuidanceState) : String × ℝ × ℝ × GuidanceState :=
  let orbit := env.orbit
  let mu := G * EARTH_MASS
  let altitude := altitudeOf st
  let flightPathAngle := flightPathAngleOf st
  let vVertical := vVerticalOf st
  let isAscending := vVertical > 0
  let SAFE_PERIAPSIS := cfg.atmosphereLimit + 30000
  let apoapsisError := orbit.apoapsis - cfg.targetAltitude
  let periapsisError := orbit.periapsis - cfg.targetAltitude
  let tolerance : ℝ := 1000
  let MIN_FPA : ℝ := -5
  let targetAboveAtmo := cfg.targetAltitude - cfg.atmosphereLimit
  let altitudeAboveAtmo := max 0 (altitude - cfg.atmosphereLimit)
  let progressToTarget := min 1 (altitudeAboveAtmo / targetAboveAtmo)
  let startingFPA := startingFPAOf cfg.targetAltitude cfg.atmosphereLimit
  let profileExponent := max 0.5 (min 1.5 (1.5 - targetAboveAtmo / 3000000))
  let baseFPA := max MIN_FPA (startingFPA * Real.rpow (1 - progressToTarget) profileExponent)
  let avgProgress := (progressToTarget + 1) / 2
  let averageFPA := max MIN_FPA (startingFPA * Real.rpow (1 - avgProgress) profileExponent)
  let avgFPARad := |averageFPA| * Real.pi / 180
  let expectedGainRatio := if avgFPARad > 0.01 then Real.cos avgFPARad / Real.sin avgFPARad else 10
  let apoapsisToGain := max 0 (cfg.targetAltitude - orbit.apoapsis)
  let expectedPeriapsisGain := apoapsisToGain * expectedGainRatio
  let predictedFinalPeriapsis := orbit.periapsis + expectedPeriapsisGain
  -- `guidanceState.lastPeriapsis || orbit.periapsis`: 0 is falsy in JS
  let lastPeri := if gs.lastPeriapsis = 0 then orbit.periapsis else gs.lastPeriapsis
  let periapsisChangeRate := (orbit.periapsis - lastPeri) / max 0.01 dt
  let gs2 : GuidanceState :=
    { gs with isRetrograde := false, lastPeriapsis := orbit.periapsis }
  let periapsisSafetyBias :=
    if orbit.periapsis < SAFE_PERIAPSIS then
      let b :=
        if periapsisChangeRate > 500 then (0 : ℝ)
        else if periapsisChangeRate > 100 then 2
        else if periapsisChangeRate > -100 then 5
        else min 15 (5 + -periapsisChangeRate / 200)
      if orbit.periapsis < -200000 then b + 5 else b
    else 0
  let predictionBias :=
    if predictedFinalPeriapsis < SAFE_PERIAPSIS ∧ apoapsisToGain > 5000 then
      -min 15 ((SAFE_PERIAPSIS - predictedFinalPeriapsis) / 10000)
    else if predictedFinalPeriapsis > cfg.targetAltitude * 1.1 ∧ apoapsisToGain > 5000 then
      min 5 ((predictedFinalPeriapsis - cfg.targetAltitude) / 50000)
    else 0
  let targetFlightPathAngle := max 0 (baseFPA + periapsisSafetyBias + predictionBias)
  let fpaError := flightPathAngle - targetFlightPathAngle
  let ladder : String × ℝ × ℝ :=
    if orbit.periapsis < 0 ∧ apoapsisError ≥ -tolerance then
      ("emergency-raise-periapsis", max 0 (flightPathAngle - 15), 1)
    else if apoapsisError < -tolerance then
      let correction :=
        if |predictionBias| > 5 then -fpaError
        else if fpaError > 5 then -min 10 (fpaError * 0.5)
        else if fpaError < -5 then min 5 (-fpaError * 0.3)
        else 0
      let throttle :=
        if orbit.periapsis < SAFE_PERIAPSIS then (1 : ℝ)
        else if -apoapsisError < 50000 then max 0.2 (-apoapsisError / 50000)
        else 1
      ("raising-apoapsis", flightPathAngle + correction, throttle)
    else if orbit.periapsis < SAFE_PERIAPSIS then
      let correction :=
        if |predictionBias| > 5 then -fpaError
        else if fpaError > 3 then -min 10 (fpaError * 0.5)
        else if fpaError < -3 then min 5 (-fpaError * 0.3)
        else 0
      ("building-periapsis", max 0 (flightPathAngle + correction), 1)
    else if apoapsisError > tolerance then
      ("apoapsis-too-high", flightPathAngle, 0)
    else if periapsisError < -tolerance then
      let r_apo := EARTH_RADIUS + orbit.apoapsis
      let v_circular := Real.sqrt (mu / r_apo)
      let v_at_apo := Real.sqrt (mu * (2 / r_apo - 1 / orbit.semiMajorAxis))
      let circDeltaV := max 0 (v_circular - v_at_apo)
      let burnTime :=
        if st.currentStage < ROCKET_CONFIG.stages.length ∧ circDeltaV > 0 then
          if (stageAt st.currentStage).thrustVac > 0 then
            circDeltaV * env.totalMass / (stageAt st.currentStage).thrustVac
          else 0
        else 0
      let tApo0 := calculateTimeToApoapsis orbit st mu
      let timeToApoapsis : Option ℝ :=
        match tApo0 with
        | some t =>
          if t ≤ 0 then
            if isAscending ∧ orbit.apoapsis > altitude then
              some ((orbit.apoapsis - altitude) / max 1 vVertical)
            else none
          else some t
        | none =>
          if isAscending ∧ orbit.apoapsis > altitude then
            some ((orbit.apoapsis - altitude) / max 1 vVertical)
          else none
      let burnStartOffset := burnTime / 2
      match timeToApoapsis with
      | some t =>
        if burnTime > 0 ∧ t ≤ burnStartOffset ∧ orbit.periapsis ≥ SAFE_PERIAPSIS then
          let periDeficit := -periapsisError
          let throttle :=
            if orbit.periapsis < SAFE_PERIAPSIS then (1 : ℝ)
            else if periDeficit < 30000 then max 0.1 (periDeficit / 30000)
            else 1
          ("circularizing", flightPathAngle, throttle)
        else ("coasting-to-circ", flightPathAngle, 0)
      | none => ("coasting-to-circ", flightPathAngle, 0)
    else ("orbit-achieved", flightPathAngle, 0)
  (ladder.1, max (-5) (min 90 ladder.2.1), ladder.2.2, gs2)

/-- STEP 5 of computeGuidance (guidance.js lines 719-731): global clamp to
[-5, 90] followed by the pitch-rate limiter relative to the previous
tick's command. -/
def applyPitchConstraints (cfg : GuidanceConfig) (raw last dt : ℝ) : ℝ :=
  let clamped := max (-5) (min 90 raw)
  if dt > 0 then
    let desiredChange := clamped - last
    if |desiredChange| > cfg.maxPitchRate * dt then
      last + jsSign desiredChange * (cfg.maxPitchRate * dt)
    else clamped
  else clamped

/-- Thrust direction for a normal prograde/guided burn
(guidance.js lines 755-760). -/
def pitchThrustDir (st : VehicleState) (pitch : ℝ) : Vec2 :=
  let pitchRad := pitch * Real.pi / 180
  ⟨Real.cos pitchRad * (localEastOf st).x + Real.sin pitchRad * (localUpOf st).x,
   Real.cos pitchRad * (localEastOf st).y + Real.sin pitchRad * (localUpOf st).y⟩

/-- Thrust direction for a retrograde burn (guidance.js lines 744-753). -/
def retroThrustDir (st : VehicleState) : Vec2 :=
  let velocityMag := Real.sqrt (st.vx * st.vx + st.vy * st.vy)
  if velocityMag > 0 then ⟨-st.vx / velocityMag, -st.vy / velocityMag⟩
  else ⟨-(localEastOf st).x, -(localEastOf st).y⟩

/-- Final normalisation of the thrust vector (guidance.js lines 763-768). -/
def normalizeVec (v : Vec2) : Vec2 :=
  let mag := Real.sqrt (v.x * v.x + v.y * v.y)
  if mag > 0 then ⟨v.x / mag, v.y / mag⟩ else v

/-- The per-tick guidance result (guidance.js lines 770-779; the debug bag
of diagnostic strings is not modelled). -/
structure GuidanceResult where
  pitch : ℝ
  thrustDir : Vec2
  throttle : ℝ
  phase : String
  orbit : Orbit
  velocityDeficit : ℝ
  remainingDeltaV : ℝ

/-- computeGuidance (guidance.js lines 38-780).  Returns the guidance
result together with the successor guidanceState.  The rate limiter reads
`gs.lastCommandedPitch`, which no branch modifies before STEP 5. -/
def computeGuidance (cfg : GuidanceConfig) (env : Env) (st : VehicleState)
    (dt : ℝ) (gs : GuidanceState) : GuidanceResult × GuidanceState :=
  let branch :=
    if altitudeOf st < cfg.atmosphereLimit then atmosphericGuidance cfg env st dt gs
    else vacuumGuidance cfg env st dt gs
  let phase := branch.1
  let commandedPitch := applyPitchConstraints cfg branch.2.1 gs.lastCommandedPitch dt
  let commandedThrottle := branch.2.2.1
  let gs1 := branch.2.2.2
  let gs2 : GuidanceState :=
    { gs1 with lastCommandedPitch := commandedPitch, phase := phase,
               throttle := commandedThrottle }
  let thrustDir :=
    normalizeVec (if gs2.isRetrograde then retroThrustDir st else pitchThrustDir st commandedPitch)
  ({ pitch := commandedPitch,
     thrustDir := thrustDir,
     throttle := commandedThrottle,
     phase := phase,
     orbit := env.orbit,
     velocityDeficit :=
       Real.sqrt (G * EARTH_MASS / (EARTH_RADIUS + cfg.targetAltitude)) - vHorizontalOf st,
     remainingDeltaV := env.remainingDeltaV }, gs2)

/-- One simulation tick as seen by the controller: vehicle state, time
step and the external physics scalars of that tick. -/
structure Tick where
  st : VehicleState
  dt : ℝ
  env : Env

/-- One entry of a guidance run: the guidanceState before the tick, the
tick inputs, the emitted result and the guidanceState after the tick. -/
structure TraceEntry where
  gsBefore : GuidanceState
  tick : Tick
  res : GuidanceResult
  gsAfter : GuidanceState

/-- The list of (state, input, output) records produced by iterating
computeGuidance over a list of ticks. -/
def guidanceTrace (cfg : GuidanceConfig) : GuidanceState → List Tick → List TraceEntry
  | _, [] => []
  | gs, t :: ts =>
    let step := computeGuidance cfg t.env t.st t.dt gs
    ⟨gs, t, step.1, step.2⟩ :: guidanceTrace cfg step.2 ts

/-!  Burn scheduler and event forecaster (src/unnamed/part_001). -/

/-- A scheduled burn event (src/unnamed/part_001, lines 375-381). -/
structure BurnEvent where
  time : ℝ
  name : String
  type : String
  burnTime : ℝ
  deltaV : ℝ

/-- Estimated circularization burn duration
(src/unnamed/part_001, lines 316-331). -/
def circBurnTimeOf (env : Env) (st : VehicleState) : ℝ :=
  let orbit := env.orbit
  let mu := G * EARTH_MASS
  let r_apo := EARTH_RADIUS + orbit.apoapsis
  let v_circular := Real.sqrt (mu / r_apo)
  let v_at_apo :=
    if orbit.semiMajorAxis > 0 then Real.sqrt (mu * (2 / r_apo - 1 / orbit.semiMajorAxis))
    else velocityOf st
  let dv := max 0 (v_circular - v_at_apo)
  if st.currentStage < ROCKET_CONFIG.stages.length ∧ dv > 0 then
    if (stageAt st.currentStage).thrustVac > 0 then dv * env.totalMass / (stageAt st.currentStage).thrustVac
    else 0
  else 0

/-- Latch resolution of the coasting sub-branch (src/unnamed/part_001,
lines 350-361): the absolute circularization burn-start time is computed
only when the latch is null. -/
def circCoastLatch (env : Env) (st : VehicleState) (burnTime : ℝ)
    (latchCirc : Option ℝ) : Option ℝ :=
  match latchCirc with
  | some t0 => some t0
  | none =>
    match calculateTimeToApoapsis env.orbit st (G * EARTH_MASS) with
    | some tApo => if 0 < tApo then some (st.time + tApo - burnTime / 2) else none
    | none => none

/-- Coasting sub-branch of the traditional circularization scheduler
(src/unnamed/part_001, lines 348-382): latch the absolute burn-start time
once, count down by subtracting the current time, clear when the countdown
elapses. -/
def circCoastingStep (env : Env) (st : VehicleState) (burnTime : ℝ)
    (latchCirc : Option ℝ) : List BurnEvent × Option ℝ :=
  match circCoastLatch env st burnTime latchCirc with
  | some t0 =>
    let tu := t0 - st.time
    if tu ≤ 0 then ([], none)
    else if tu < 10000 then
      ([⟨tu, "Circularization burn start", "circularization", 0, 0⟩], some t0)
    else ([], some t0)
  | none => ([], none)

/-- Latch resolution of the thrusting sub-branch (src/unnamed/part_001,
lines 386-407), with the kinematic fallback chain for the time to
apoapsis. -/
def circThrustLatch (env : Env) (st : VehicleState) (burnTime : ℝ)
    (latchCirc : Option ℝ) : Option ℝ :=
  match latchCirc with
  | some t0 => some t0
  | none =>
    let t1 : Option ℝ :=
      match calculateTimeToApoapsis env.orbit st (G * EARTH_MASS) with
      | some t => if t ≤ 0 then none else some t
      | none => none
    let t2 : Option ℝ :=
      match t1 with
      | some t => some t
      | none =>
        if vVerticalOf st > 0 then
          match calculateTimeToAltitude env st env.altitude env.orbit.apoapsis (vVerticalOf st) with
          | some t =>
            if t ≤ 0 then some ((env.orbit.apoapsis - env.altitude) / max 1 (vVerticalOf st))
            else some t
          | none => some ((env.orbit.apoapsis - env.altitude) / max 1 (vVerticalOf st))
        else none
    match t2 with
    | some t => if 0 < t ∧ burnTime / 2 < t then some (st.time + t - burnTime / 2) else none
    | none => none

/-- Thrusting sub-branch of the traditional circularization scheduler
(src/unnamed/part_001, lines 383-427). -/
def circThrustingStep (env : Env) (st : VehicleState) (burnTime : ℝ)
    (latchCirc : Option ℝ) : List BurnEvent × Option ℝ :=
  match circThrustLatch env st burnTime latchCirc with
  | some t0 =>
    let tu := t0 - st.time
    if 0 < tu ∧ tu < 10000 then
      ([⟨tu, "Circularization burn start", "circularization", 0, 0⟩], some t0)
    else if tu ≤ 0 then ([], none)
    else ([], some t0)
  | none => ([], none)

/-- The guard of the traditional-strategy block (src/unnamed/part_001,
line 342, with the strategy selection of lines 333-336): not direct
ascent, at least 1500 s elapsed, periapsis more than tolerance below
target and apoapsis within tolerance of target. -/
abbrev tradTrigger (cfg : GuidanceConfig) (env : Env) (st : VehicleState) : Prop :=
  ¬(cfg.targetAltitude < 250000 ∨
      (circBurnTimeOf env st > 0 ∧ circBurnTimeOf env st > 60 ∧
        env.orbit.apoapsis - cfg.targetAltitude < 10000)) ∧
  st.time ≥ 1500 ∧ env.orbit.periapsis - cfg.targetAltitude < -10000 ∧
  env.orbit.apoapsis - cfg.targetAltitude ≥ -10000

/-- Traditional-strategy block of calculateBurnEvents
(src/unnamed/part_001, lines 312-431): strategy selection, the 25-minute
gate, the two ascending sub-branches, and the phase-exit reset of the
circularization latch. -/
def traditionalBlock (cfg : GuidanceConfig) (env : Env) (st : VehicleState)
    (latchCirc : Option ℝ) : List BurnEvent × Option ℝ :=
  if tradTrigger cfg env st then
    let altitudeToApoapsis := env.orbit.apoapsis - env.altitude
    if ¬st.engineOn = true ∧ vVerticalOf st > 0 ∧ altitudeToApoapsis > 0 then
      circCoastingStep env st (circBurnTimeOf env st) latchCirc
    else if st.engineOn = true ∧ vVerticalOf st > 0 ∧ altitudeToApoapsis > 0 then
      circThrustingStep env st (circBurnTimeOf env st) latchCirc
    else ([], latchCirc)
  else ([], none)

/-- Latch resolution of the retrograde-burn block (src/unnamed/part_001,
lines 452-489): time to periapsis with its kinematic fallback, retrograde
delta-v and burn duration, and the bracketed absolute start time, computed
only when the latch is null. -/
def retroLatch (cfg : GuidanceConfig) (env : Env) (st : VehicleState)
    (latchRetro : Option ℝ) : Option ℝ :=
  let orbit := env.orbit
  let mu := G * EARTH_MASS
  let altitudeToPeriapsis := env.altitude - orbit.periapsis
  match latchRetro with
  | some t0 => some t0
  | none =>
    let t1 : Option ℝ :=
      match calculateTimeToPeriapsis orbit st mu with
      | some t => if t ≤ 0 then none else some t
      | none => none
    let t2 : Option ℝ :=
      match t1 with
      | some t => some t
      | none =>
        if ¬vVerticalOf st > 0 ∧ altitudeToPeriapsis > 0 then
          some (altitudeToPeriapsis / max 1 (-vVerticalOf st))
        else none
    let r_peri := EARTH_RADIUS + orbit.periapsis
    let r_target := EARTH_RADIUS + cfg.targetAltitude
    let a_target := (r_peri + r_target) / 2
    let v_peri_target := Real.sqrt (mu * (2 / r_peri - 1 / a_target))
    let v_at_peri :=
      if orbit.semiMajorAxis > 0 then Real.sqrt (mu * (2 / r_peri - 1 / orbit.semiMajorAxis))
      else velocityOf st
    let retrogradeDeltaV := max 0 (v_at_peri - v_peri_target)
    let retrogradeBurnTime :=
      if st.currentStage < ROCKET_CONFIG.stages.length ∧ retrogradeDeltaV > 0 then
        if (stageAt st.currentStage).thrustVac > 0 then
          retrogradeDeltaV * env.totalMass / (stageAt st.currentStage).thrustVac
        else 0
      else 0
    match t2 with
    | some t =>
      if 0 < t ∧ retrogradeBurnTime / 2 < t then some (st.time + t - retrogradeBurnTime / 2)
      else none
    | none => none

/-- Retrograde-burn block of calculateBurnEvents
(src/unnamed/part_001, lines 447-511). -/
def retroBlock (cfg : GuidanceConfig) (env : Env) (st : VehicleState)
    (latchRetro : Option ℝ) : List BurnEvent × Option ℝ :=
  let orbit := env.orbit
  let apoError := orbit.apoapsis - cfg.targetAltitude
  let periError := orbit.periapsis - cfg.targetAltitude
  if periError ≥ -10000 ∧ apoError > 10000 then
    match retroLatch cfg env st latchRetro with
    | some t0 =>
      let tu := t0 - st.time
      if 0 < tu ∧ tu < 10000 then
        ([⟨tu, "Retrograde burn start", "retrograde", 0, 0⟩], some t0)
      else if tu ≤ 0 then ([], none)
      else ([], some t0)
    | none => ([], none)
  else ([], none)

/-- calculateBurnEvents (src/unnamed/part_001, lines 289-514).  The two
module-level latched timestamps are passed and returned explicitly:
(events, circularization latch, retrograde latch). -/
def calculateBurnEvents (cfg : GuidanceConfig) (env : Env) (st : VehicleState)
    (latchCirc latchRetro : Option ℝ) : List BurnEvent × Option ℝ × Option ℝ :=
  if env.altitude < cfg.atmosphereLimit then ([], latchCirc, latchRetro)
  else
    let trad := traditionalBlock cfg env st latchCirc
    let retro := retroBlock cfg env st latchRetro
    (trad.1 ++ retro.1, trad.2, retro.2)

/-- An entry of the next-event list (src/unnamed/part_001, getNextEvent);
only the time and name fields of the pushed objects are consumed. -/
structure NEvent where
  time : ℝ
  name : String

/-- The candidate event list assembled by getNextEvent
(src/unnamed/part_001, lines 517-602), in push order. -/
def forecastEvents (cfg : GuidanceConfig) (env : Env) (st : VehicleState)
    (latchCirc latchRetro : Option ℝ) : List NEvent :=
  let altitude := env.altitude
  let vVert := vVerticalOf st
  let ev1 : List NEvent :=
    if st.time < 10 then [⟨10 - st.time, "Pitch program start"⟩] else []
  let ev2 : List NEvent :=
    if altitude < KARMAN_LINE ∧ ¬st.karmanLogged = true then
      if vVert > 0 then
        match calculateTimeToAltitude env st altitude KARMAN_LINE vVert with
        | some t => if t > 0 ∧ t < 10000 then [⟨t, "Kármán line"⟩] else []
        | none => []
      else []
    else []
  let ev3 : List NEvent :=
    if ¬st.fairingJettisoned = true ∧ altitude < ROCKET_CONFIG.fairingJettisonAlt then
      if vVert > 0 then
        match calculateTimeToAltitude env st altitude ROCKET_CONFIG.fairingJettisonAlt vVert with
        | some t => if t > 0 ∧ t < 10000 then [⟨t, "Fairing jettison"⟩] else []
        | none => []
      else []
    else []
  let ev4 : List NEvent :=
    if st.currentStage = 0 ∧ st.propellantRemaining 0 > 0 ∧ st.engineOn = true then
      if env.massFlowRate > 0 then
        let t := st.propellantRemaining 0 / env.massFlowRate
        if t > 0 ∧ t < 10000 then [⟨t, "Stage separation"⟩] else []
      else []
    else []
  let inOrbit := altitude ≥ 150000 ∧ ¬st.engineOn = true
  let ev5 : List NEvent :=
    if ¬inOrbit ∧ altitude < 150000 then
      if vVert > 0 then
        match calculateTimeToAltitude env st altitude 150000 vVert with
        | some timeToOrbit =>
          if timeToOrbit > 0 ∧ timeToOrbit < 10000 then
            let totalTime :=
              if st.engineOn = true ∧ st.currentStage < ROCKET_CONFIG.stages.length then
                if env.massFlowRate > 0 ∧ st.propellantRemaining st.currentStage > 0 then
                  max timeToOrbit (st.propellantRemaining st.currentStage / env.massFlowRate)
                else timeToOrbit
              else timeToOrbit
            [⟨totalTime, "Orbit"⟩]
          else []
        | none => []
      else []
    else []
  let ev6 : List NEvent :=
    if st.currentStage = 1 ∧ st.propellantRemaining 1 > 0 ∧ st.engineOn = true then
      if env.massFlowRate > 0 then
        let t := st.propellantRemaining 1 / env.massFlowRate
        if t > 0 ∧ t < 10000 then [⟨t, "SECO"⟩] else []
      else []
    else []
  let burn := (calculateBurnEvents cfg env st latchCirc latchRetro).1
  ev1 ++ ev2 ++ ev3 ++ ev4 ++ ev5 ++ ev6 ++ burn.map (fun b => ⟨b.time, b.name⟩)

/-- getNextEvent (src/unnamed/part_001, lines 517-610).  The source sorts
the list ascending by time with a stable sort and returns the head, i.e.
the first element of minimal time; this is `List.argmin` on the time
field.  The successor latch state produced by the embedded
calculateBurnEvents call is returned alongside. -/
def getNextEvent (cfg : GuidanceConfig) (env : Env) (st : VehicleState)
    (latchCirc latchRetro : Option ℝ) : Option NEvent × Option ℝ × Option ℝ :=
  (List.argmin NEvent.time (forecastEvents cfg env st latchCirc latchRetro),
   (calculateBurnEvents cfg env st latchCirc latchRetro).2)

/-!  Concrete inputs used by witnesses and counterexamples. -/

/-- A quiescent vehicle state on the pad. -/
def baseState : VehicleState :=
  { x := EARTH_RADIUS, y := 0, vx := 0, vy := 0, time := 0, currentStage := 0,
    engineOn := false, burnMode := none, guidancePitch := none,
    guidanceThrottle := none, propellantRemaining := fun _ => 0,
    fairingJettisoned := false, karmanLogged := false }

/-- A quiescent physics oracle. -/
def baseEnv : Env :=
  { airDensity := 0, airspeed := 0, gravity := 9.8, totalMass := 1,
    remainingDeltaV := 0, orbit := ⟨0, 0, 0, 0, false⟩, altitude := 0,
    massFlowRate := 0, currentThrust := 0, drag := 0 }

/-!  Theorems. -/

/-- traditionalBlock is inert before the 25-minute gate of
src/unnamed/part_001 line 342. -/
theorem traditionalBlock_before1500 (cfg : GuidanceConfig) (env : Env)
    (st : VehicleState) (lc : Option ℝ) (h : st.time < 1500) :
    traditionalBlock cfg env st lc = ([], none) := by
  simp only [traditionalBlock]
  split_ifs with h1 h2 h3 <;> first | rfl | exact absurd h1.2.1 (by linarith)

/-- Every event emitted by the retrograde block carries the type tag
"retrograde". -/
theorem retroBlock_mem_type (cfg : GuidanceConfig) (env : Env) (st : VehicleState)
    (lr : Option ℝ) (b : BurnEvent) (hb : b ∈ (retroBlock cfg env st lr).1) :
    b.type = "retrograde" := by
  simp only [retroBlock] at hb
  split at hb
  · rcases hL : retroLatch cfg env st lr with _ | t0 <;> rw [hL] at hb
    · simp at hb
    · simp only [] at hb
      split_ifs at hb <;> simp_all
  · simp at hb

/-- C10: for every vehicle state whose elapsed mission time is strictly
below 1500 seconds, calculateBurnEvents returns no circularization burn
event, whatever the orbit, strategy selection or engine state. -/
theorem calculateBurnEvents_no_circ_before_1500
    (cfg : GuidanceConfig) (env : Env) (st : VehicleState) (lc lr : Option ℝ)
    (h : st.time < 1500) :
    "circularization" ∉ List.map BurnEvent.type (calculateBurnEvents cfg env st lc lr).1 := by
  simp only [calculateBurnEvents]
  split
  · simp
  · rw [traditionalBlock_before1500 cfg env st lc h]
    simp only [List.nil_append, List.mem_map]
    rintro ⟨b, hb, hty⟩
    rw [retroBlock_mem_type cfg env st lr b hb] at hty
    exact absurd hty (by decide)

/-- C10 witness: the theorem applied at a concrete pad state. -/
theorem calculateBurnEvents_no_circ_before_1500_witness :
    "circularization" ∉
      List.map BurnEvent.type (calculateBurnEvents GUIDANCE_CONFIG baseEnv baseState none none).1 :=
  calculateBurnEvents_no_circ_before_1500 _ _ _ _ _ (by norm_num [baseState])

/-- C2: for a closed near-circular orbit (not escaping, eccentricity below
1e-6, positive semi-major axis) both calculateTimeToApoapsis and
calculateTimeToPeriapsis return exactly half the orbital period
T = 2·pi·sqrt(a³/mu), independently of the vehicle position and
velocity. -/
theorem timeToApsis_circular_halfPeriod (orbit : Orbit) (st : VehicleState) (mu : ℝ)
    (hesc : orbit.isEscape = false) (he : orbit.eccentricity < 1e-6)
    (ha : 0 < orbit.semiMajorAxis) :
    calculateTimeToApoapsis orbit st mu =
      some (2 * Real.pi * Real.sqrt
        (orbit.semiMajorAxis * orbit.semiMajorAxis * orbit.semiMajorAxis / mu) / 2) ∧
    calculateTimeToPeriapsis orbit st mu =
      some (2 * Real.pi * Real.sqrt
        (orbit.semiMajorAxis * orbit.semiMajorAxis * orbit.semiMajorAxis / mu) / 2) := by
  have hno : ¬(orbit.isEscape = true ∨ orbit.eccentricity ≥ 1 ∨ orbit.semiMajorAxis ≤ 0) := by
    push_neg
    refine ⟨by simp [hesc], by nlinarith, by linarith⟩
  constructor
  · simp only [calculateTimeToApoapsis]
    rw [if_neg hno, if_pos he]
  · simp only [calculateTimeToPeriapsis]
    rw [if_neg hno, if_pos he]

/-- C2 witness: a concrete circular orbit of semi-major axis 1 with mu = 1. -/
theorem timeToApsis_circular_halfPeriod_witness :
    calculateTimeToApoapsis ⟨1, 0, 0, 0, false⟩ baseState 1 =
      some (2 * Real.pi * Real.sqrt ((1 : ℝ) * 1 * 1 / 1) / 2) ∧
    calculateTimeToPeriapsis ⟨1, 0, 0, 0, false⟩ baseState 1 =
      some (2 * Real.pi * Real.sqrt ((1 : ℝ) * 1 * 1 / 1) / 2) :=
  timeToApsis_circular_halfPeriod ⟨1, 0, 0, 0, false⟩ baseState 1 rfl
    (by norm_num) (by norm_num)

/-- C6 (code bug): at the shipped configuration (target altitude 700000 m,
atmosphere limit 70000 m) the executed starting-FPA formula of
guidance.js line 330 yields 22.6°, while the rule stated by its own
documentation block (and by the claim), +1° per 15 km clamped to
[10°, 50°], yields 50°. -/
theorem startingFPA_code_vs_documented :
    startingFPAOf GUIDANCE_CONFIG.targetAltitude GUIDANCE_CONFIG.atmosphereLimit = 22.6 ∧
    startingFPADocumented GUIDANCE_CONFIG.targetAltitude GUIDANCE_CONFIG.atmosphereLimit = 50 ∧
    ¬startingFPAOf GUIDANCE_CONFIG.targetAltitude GUIDANCE_CONFIG.atmosphereLimit =
      startingFPADocumented GUIDANCE_CONFIG.targetAltitude GUIDANCE_CONFIG.atmosphereLimit := by
  norm_num [startingFPAOf, startingFPADocumented, GUIDANCE_CONFIG, min_def, max_def]

/-- C8: computeGuidance and calculateBurnEvents are deterministic pure
functions of the tick inputs and the prior mutable state: equal inputs
give equal outputs and equal successor state. -/
theorem guidance_deterministic (cfg cfg2 : GuidanceConfig) (env env2 : Env)
    (st st2 : VehicleState) (dt dt2 : ℝ) (gs gs2 : GuidanceState)
    (lc lc2 lr lr2 : Option ℝ)
    (h1 : cfg = cfg2) (h2 : env = env2) (h3 : st = st2) (h4 : dt = dt2)
    (h5 : gs = gs2) (h6 : lc = lc2) (h7 : lr = lr2) :
    computeGuidance cfg env st dt gs = computeGuidance cfg2 env2 st2 dt2 gs2 ∧
    calculateBurnEvents cfg env st lc lr = calculateBurnEvents cfg2 env2 st2 lc2 lr2 := by
  subst h1 h2 h3 h4 h5 h6 h7
  exact ⟨rfl, rfl⟩

/-- C8 witness: the theorem applied at a concrete tick. -/
theorem guidance_deterministic_witness :
    computeGuidance GUIDANCE_CONFIG baseEnv baseState 1 resetGuidance =
      computeGuidance GUIDANCE_CONFIG baseEnv baseState 1 resetGuidance ∧
    calculateBurnEvents GUIDANCE_CONFIG baseEnv baseState none none =
      calculateBurnEvents GUIDANCE_CONFIG baseEnv baseState none none :=
  guidance_deterministic _ _ _ _ _ _ _ _ _ _ _ _ _ _ rfl rfl rfl rfl rfl rfl rfl

/-- The returned pitch is exactly the raw branch command passed through
the global clamp and rate limiter of STEP 5. -/
theorem computeGuidance_pitch_eq (cfg : GuidanceConfig) (env : Env) (st : VehicleState)
    (dt : ℝ) (gs : GuidanceState) :
    (computeGuidance cfg env st dt gs).1.pitch =
      applyPitchConstraints cfg
        (if altitudeOf st < cfg.atmosphereLimit then atmosphericGuidance cfg env st dt gs
         else vacuumGuidance cfg env st dt gs).2.1 gs.lastCommandedPitch dt := rfl

/-- The returned pitch is persisted into lastCommandedPitch. -/
theorem computeGuidance_lastPitch (cfg : GuidanceConfig) (env : Env) (st : VehicleState)
    (dt : ℝ) (gs : GuidanceState) :
    (computeGuidance cfg env st dt gs).2.lastCommandedPitch =
      (computeGuidance cfg env st dt gs).1.pitch := rfl

/-- The clamp-then-rate-limit of STEP 5 always lands in [-5, 90] when the
previous command was in [-5, 90] and the rate limit is nonnegative. -/
theorem applyPitchConstraints_range (cfg : GuidanceConfig) (raw last dt : ℝ)
    (hrate : 0 ≤ cfg.maxPitchRate) (hl : -5 ≤ last) (hh : last ≤ 90) :
    -5 ≤ applyPitchConstraints cfg raw last dt ∧ applyPitchConstraints cfg raw last dt ≤ 90 := by
  have hc1 : (-5 : ℝ) ≤ max (-5) (min 90 raw) := le_max_left _ _
  have hc2 : max (-5 : ℝ) (min 90 raw) ≤ 90 := max_le (by norm_num) (min_le_left _ _)
  simp only [applyPitchConstraints, jsSign]
  by_cases hdt : dt > 0
  · rw [if_pos hdt]
    by_cases habs : |max (-5 : ℝ) (min 90 raw) - last| > cfg.maxPitchRate * dt
    · rw [if_pos habs]
      have hrd : 0 ≤ cfg.maxPitchRate * dt := mul_nonneg hrate hdt.le
      rcases lt_trichotomy (max (-5 : ℝ) (min 90 raw) - last) 0 with hneg | hzero | hpos
      · have h2 : cfg.maxPitchRate * dt < -(max (-5 : ℝ) (min 90 raw) - last) := by
          rwa [abs_of_neg hneg] at habs
        rw [if_neg (by linarith), if_pos hneg]
        constructor <;> nlinarith
      · exact absurd habs (by rw [hzero, abs_zero]; exact not_lt.mpr hrd)
      · have h2 : cfg.maxPitchRate * dt < max (-5 : ℝ) (min 90 raw) - last := by
          rwa [abs_of_pos hpos] at habs
        rw [if_pos hpos]
        constructor <;> nlinarith
    · rw [if_neg habs]; exact ⟨hc1, hc2⟩
  · rw [if_neg hdt]; exact ⟨hc1, hc2⟩

/-- With a positive time step, STEP 5 never moves the pitch by more than
maxPitchRate · dt from the previous command. -/
theorem applyPitchConstraints_rate (cfg : GuidanceConfig) (raw last dt : ℝ)
    (hrate : 0 ≤ cfg.maxPitchRate) (hdt : 0 < dt) :
    |applyPitchConstraints cfg raw last dt - last| ≤ cfg.maxPitchRate * dt := by
  have hrd : 0 ≤ cfg.maxPitchRate * dt := mul_nonneg hrate hdt.le
  simp only [applyPitchConstraints, jsSign]
  rw [if_pos hdt]
  by_cases habs : |max (-5 : ℝ) (min 90 raw) - last| > cfg.maxPitchRate * dt
  · rw [if_pos habs]
    rcases lt_trichotomy (max (-5 : ℝ) (min 90 raw) - last) 0 with hneg | hzero | hpos
    · rw [if_neg (by linarith), if_pos hneg,
        show last + -1 * (cfg.maxPitchRate * dt) - last = -(cfg.maxPitchRate * dt) by ring,
        abs_neg, abs_of_nonneg hrd]
    · exact absurd habs (by rw [hzero, abs_zero]; exact not_lt.mpr hrd)
    · rw [if_pos hpos,
        show last + 1 * (cfg.maxPitchRate * dt) - last = cfg.maxPitchRate * dt by ring,
        abs_of_nonneg hrd]
  · rw [if_neg habs]
    exact not_lt.mp habs

/-- One guidance tick keeps the pitch in [-5, 90], stores it as the next
lastCommandedPitch, and respects the rate limit for positive dt. -/
theorem computeGuidance_step_pitch (cfg : GuidanceConfig) (env : Env) (st : VehicleState)
    (dt : ℝ) (gs : GuidanceState) (hrate : 0 ≤ cfg.maxPitchRate)
    (hl : -5 ≤ gs.lastCommandedPitch) (hh : gs.lastCommandedPitch ≤ 90) :
    (-5 ≤ (computeGuidance cfg env st dt gs).1.pitch ∧
      (computeGuidance cfg env st dt gs).1.pitch ≤ 90) ∧
    (computeGuidance cfg env st dt gs).2.lastCommandedPitch =
      (computeGuidance cfg env st dt gs).1.pitch ∧
    (0 < dt →
      |(computeGuidance cfg env st dt gs).1.pitch - gs.lastCommandedPitch| ≤
        cfg.maxPitchRate * dt) :=
  ⟨applyPitchConstraints_range cfg _ _ _ hrate hl hh, rfl,
   fun hdt => applyPitchConstraints_rate cfg _ _ _ hrate hdt⟩

/-- C1 (amended): along every run started from resetGuidance, every
emitted pitch lies in [-5, 90]; and on every tick whose dt is positive the
pitch moves from the previous tick's stored command by at most
maxPitchRate · dt.  (For dt ≤ 0 the source skips the rate limiter, see the
counterexample.) -/
theorem guidanceTrace_pitch_bounds (ticks : List Tick) (e : TraceEntry)
    (he : e ∈ guidanceTrace GUIDANCE_CONFIG resetGuidance ticks) :
    (-5 ≤ e.res.pitch ∧ e.res.pitch ≤ 90) ∧
    (0 < e.tick.dt →
      |e.res.pitch - e.gsBefore.lastCommandedPitch| ≤ GUIDANCE_CONFIG.maxPitchRate * e.tick.dt) := by
  have hrate : (0 : ℝ) ≤ GUIDANCE_CONFIG.maxPitchRate := by norm_num [GUIDANCE_CONFIG]
  have main : ∀ (ts : List Tick) (gs : GuidanceState), -5 ≤ gs.lastCommandedPitch →
      gs.lastCommandedPitch ≤ 90 → ∀ e ∈ guidanceTrace GUIDANCE_CONFIG gs ts,
      (-5 ≤ e.res.pitch ∧ e.res.pitch ≤ 90) ∧
      (0 < e.tick.dt →
        |e.res.pitch - e.gsBefore.lastCommandedPitch| ≤ GUIDANCE_CONFIG.maxPitchRate * e.tick.dt) := by
    intro ts
    induction ts with
    | nil => intro gs _ _ e he; simp [guidanceTrace] at he
    | cons t ts ih =>
      intro gs h1 h2 e he
      simp only [guidanceTrace] at he
      rcases List.mem_cons.1 he with he | he
      · subst he
        obtain ⟨hb, _, hr⟩ := computeGuidance_step_pitch GUIDANCE_CONFIG t.env t.st t.dt gs hrate h1 h2
        exact ⟨hb, hr⟩
      · obtain ⟨⟨hb1, hb2⟩, hlast, _⟩ :=
          computeGuidance_step_pitch GUIDANCE_CONFIG t.env t.st t.dt gs hrate h1 h2
        exact ih _ (by rw [hlast]; exact hb1) (by rw [hlast]; exact hb2) e he
  exact main ticks resetGuidance (by norm_num [resetGuidance]) (by norm_num [resetGuidance]) e he

/-- Tick used by the C1 witness. -/
def tickC1 : Tick := ⟨baseState, 1, baseEnv⟩

/-- Trace entry used by the C1 witness. -/
def entryC1 : TraceEntry :=
  ⟨resetGuidance, tickC1,
   (computeGuidance GUIDANCE_CONFIG baseEnv baseState 1 resetGuidance).1,
   (computeGuidance GUIDANCE_CONFIG baseEnv baseState 1 resetGuidance).2⟩

/-- C1 witness: the theorem applied to the one-tick run of tickC1. -/
theorem guidanceTrace_pitch_bounds_witness :
    (-5 ≤ entryC1.res.pitch ∧ entryC1.res.pitch ≤ 90) ∧
    (0 < entryC1.tick.dt →
      |entryC1.res.pitch - entryC1.gsBefore.lastCommandedPitch| ≤
        GUIDANCE_CONFIG.maxPitchRate * entryC1.tick.dt) :=
  guidanceTrace_pitch_bounds [tickC1] entryC1 (by simp [guidanceTrace, entryC1, tickC1])

/-- Vehicle state 9 seconds into flight, on the pad radius (pitch-kick
window). -/
def stC1 : VehicleState :=
  { x := EARTH_RADIUS, y := 0, vx := 0, vy := 0, time := 9, currentStage := 0,
    engineOn := false, burnMode := none, guidancePitch := none,
    guidanceThrottle := none, propellantRemaining := fun _ => 0,
    fairingJettisoned := false, karmanLogged := false }

/-- C1 counterexample: with dt = 0 the source bypasses the rate limiter,
so the tick-to-tick pitch change (2.5° here, from 90° to 87.5° during the
pitch kick) exceeds maxPitchRate · dt = 0; the claim quantified over every
dt is therefore false. -/
theorem guidanceTrace_pitch_rate_dt_zero_cex :
    ¬|(computeGuidance GUIDANCE_CONFIG baseEnv stC1 0 resetGuidance).1.pitch -
        resetGuidance.lastCommandedPitch| ≤ GUIDANCE_CONFIG.maxPitchRate * 0 := by
  have hr : rOf stC1 = EARTH_RADIUS := by
    rw [rOf, show stC1.x * stC1.x + stC1.y * stC1.y = EARTH_RADIUS ^ 2 by
      norm_num [stC1]; ring]
    exact Real.sqrt_sq (by norm_num [EARTH_RADIUS])
  have halt : altitudeOf stC1 = 0 := by rw [altitudeOf, hr]; ring
  have hpitch : (computeGuidance GUIDANCE_CONFIG baseEnv stC1 0 resetGuidance).1.pitch = 87.5 := by
    rw [computeGuidance_pitch_eq,
      if_pos (show altitudeOf stC1 < GUIDANCE_CONFIG.atmosphereLimit by
        rw [halt]; norm_num [GUIDANCE_CONFIG])]
    have hatm : (atmosphericGuidance GUIDANCE_CONFIG baseEnv stC1 0 resetGuidance).2.1 = 87.5 := by
      rw [atmosphericGuidance,
        if_neg (show ¬stC1.time < GUIDANCE_CONFIG.pitchKickStart by
          norm_num [stC1, GUIDANCE_CONFIG]),
        if_pos (show stC1.time < GUIDANCE_CONFIG.pitchKickEnd by
          norm_num [stC1, GUIDANCE_CONFIG])]
      have hcos : Real.cos ((stC1.time - GUIDANCE_CONFIG.pitchKickStart) /
          (GUIDANCE_CONFIG.pitchKickEnd - GUIDANCE_CONFIG.pitchKickStart) * Real.pi) = 0 := by
        rw [show (stC1.time - GUIDANCE_CONFIG.pitchKickStart) /
            (GUIDANCE_CONFIG.pitchKickEnd - GUIDANCE_CONFIG.pitchKickStart) * Real.pi =
            Real.pi / 2 by norm_num [stC1, GUIDANCE_CONFIG]; ring]
        exact Real.cos_pi_div_two
      simp only [hcos]
      norm_num [GUIDANCE_CONFIG]
    rw [hatm]
    norm_num [applyPitchConstraints, min_def, max_def]
  rw [hpitch]
  norm_num [resetGuidance, GUIDANCE_CONFIG, abs_le]

/-- The atmospheric branch never touches the retrograde flag. -/
theorem atmosphericGuidance_isRetrograde (cfg : GuidanceConfig) (env : Env)
    (st : VehicleState) (dt : ℝ) (gs : GuidanceState) :
    (atmosphericGuidance cfg env st dt gs).2.2.2.isRetrograde = gs.isRetrograde := by
  simp only [atmosphericGuidance]
  split
  · rfl
  · split
    · rfl
    · split <;> rfl

/-- The vacuum branch always produces the state with isRetrograde reset to
false and lastPeriapsis updated. -/
theorem vacuumGuidance_gsAfter (cfg : GuidanceConfig) (env : Env) (st : VehicleState)
    (dt : ℝ) (gs : GuidanceState) :
    (vacuumGuidance cfg env st dt gs).2.2.2 =
      { gs with isRetrograde := false, lastPeriapsis := env.orbit.periapsis } := rfl

/-- The thrust direction is dispatched on the successor retrograde flag. -/
theorem computeGuidance_thrustDir_eq (cfg : GuidanceConfig) (env : Env) (st : VehicleState)
    (dt : ℝ) (gs : GuidanceState) :
    (computeGuidance cfg env st dt gs).1.thrustDir =
      normalizeVec (if (computeGuidance cfg env st dt gs).2.isRetrograde = true
        then retroThrustDir st
        else pitchThrustDir st (computeGuidance cfg env st dt gs).1.pitch) := rfl

/-- A tick keeps the retrograde flag false. -/
theorem computeGuidance_isRetrograde (cfg : GuidanceConfig) (env : Env) (st : VehicleState)
    (dt : ℝ) (gs : GuidanceState) (h : gs.isRetrograde = false) :
    (computeGuidance cfg env st dt gs).2.isRetrograde = false := by
  show (if altitudeOf st < cfg.atmosphereLimit then atmosphericGuidance cfg env st dt gs
      else vacuumGuidance cfg env st dt gs).2.2.2.isRetrograde = false
  split_ifs
  · rw [atmosphericGuidance_isRetrograde]; exact h
  · rw [vacuumGuidance_gsAfter]

/-- C9: after resetGuidance, along any sequence of computeGuidance calls
on any inputs, isRetrograde stays false and the returned thrust direction
is always the normalised pitch-based vector in the local horizon frame;
the retrograde velocity-opposing branch is never taken. -/
theorem guidanceTrace_never_retrograde (cfg : GuidanceConfig) (ticks : List Tick)
    (e : TraceEntry) (he : e ∈ guidanceTrace cfg resetGuidance ticks) :
    e.gsAfter.isRetrograde = false ∧
    e.res.thrustDir = normalizeVec (pitchThrustDir e.tick.st e.res.pitch) := by
  have main : ∀ (ts : List Tick) (gs : GuidanceState), gs.isRetrograde = false →
      ∀ e ∈ guidanceTrace cfg gs ts,
      e.gsAfter.isRetrograde = false ∧
      e.res.thrustDir = normalizeVec (pitchThrustDir e.tick.st e.res.pitch) := by
    intro ts
    induction ts with
    | nil => intro gs _ e he; simp [guidanceTrace] at he
    | cons t ts ih =>
      intro gs hgs e he
      simp only [guidanceTrace] at he
      rcases List.mem_cons.1 he with he | he
      · subst he
        refine ⟨computeGuidance_isRetrograde cfg t.env t.st t.dt gs hgs, ?_⟩
        rw [computeGuidance_thrustDir_eq,
          computeGuidance_isRetrograde cfg t.env t.st t.dt gs hgs]
        simp
      · exact ih _ (computeGuidance_isRetrograde cfg t.env t.st t.dt gs hgs) e he
  exact main ticks resetGuidance rfl e he

/-- Tick used by the C9 witness. -/
def tickC9 : Tick := ⟨baseState, 1, baseEnv⟩

/-- Trace entry used by the C9 witness. -/
def entryC9 : TraceEntry :=
  ⟨resetGuidance, tickC9,
   (computeGuidance GUIDANCE_CONFIG baseEnv baseState 1 resetGuidance).1,
   (computeGuidance GUIDANCE_CONFIG baseEnv baseState 1 resetGuidance).2⟩

/-- C9 witness: the theorem applied to a concrete one-tick run. -/
theorem guidanceTrace_never_retrograde_witness :
    entryC9.gsAfter.isRetrograde = false ∧
    entryC9.res.thrustDir = normalizeVec (pitchThrustDir entryC9.tick.st entryC9.res.pitch) :=
  guidanceTrace_never_retrograde GUIDANCE_CONFIG [tickC9] entryC9
    (by simp [guidanceTrace, entryC9, tickC9])

/-- For a vehicle east of the planet centre (y = 0) moving horizontally
(vx = 0, vy < 0), the flight-path angle is 0 and the vertical speed is 0. -/
theorem eastbound_fpa (st : VehicleState) (hx : 0 < st.x) (hy : st.y = 0)
    (hvx : st.vx = 0) (hvy : st.vy < 0) : flightPathAngleOf st = 0 := by
  have hr : rOf st = st.x := by
    rw [rOf, hy, show st.x * st.x + 0 * 0 = st.x ^ 2 by ring]
    exact Real.sqrt_sq hx.le
  have hvv : vVerticalOf st = 0 := by
    simp [vVerticalOf, localUpOf, hr, hy, hvx]
  have hvh : vHorizontalOf st = -st.vy := by
    simp [vHorizontalOf, localEastOf, localUpOf, hr, hy, hvx, div_self hx.ne']
  rw [flightPathAngleOf, hvv, hvh, atan2, if_pos (by linarith : (0 : ℝ) < -st.vy)]
  simp

/-- The phase of the result is the phase of the selected branch. -/
theorem computeGuidance_phase_eq (cfg : GuidanceConfig) (env : Env) (st : VehicleState)
    (dt : ℝ) (gs : GuidanceState) :
    (computeGuidance cfg env st dt gs).1.phase =
      (if altitudeOf st < cfg.atmosphereLimit then atmosphericGuidance cfg env st dt gs
       else vacuumGuidance cfg env st dt gs).1 := rfl

/-- The throttle of the result is the throttle of the selected branch. -/
theorem computeGuidance_throttle_eq (cfg : GuidanceConfig) (env : Env) (st : VehicleState)
    (dt : ℝ) (gs : GuidanceState) :
    (computeGuidance cfg env st dt gs).1.throttle =
      (if altitudeOf st < cfg.atmosphereLimit then atmosphericGuidance cfg env st dt gs
       else vacuumGuidance cfg env st dt gs).2.2.1 := rfl

/-- The branch-local clamp of guidance.js line 710 is absorbed by the
global clamp of line 720. -/
theorem applyPitchConstraints_clamp (cfg : GuidanceConfig) (x last dt : ℝ) :
    applyPitchConstraints cfg (max (-5) (min 90 x)) last dt =
      applyPitchConstraints cfg x last dt := by
  simp only [applyPitchConstraints]
  rw [min_eq_right (max_le (by norm_num) (min_le_left _ _)),
    max_eq_right (le_max_left (-5 : ℝ) (min 90 x))]

/-- When the clamped command sits more than maxPitchRate · dt below the
previous command, the rate limiter moves down by exactly that amount. -/
theorem applyPitchConstraints_down (cfg : GuidanceConfig) (raw last dt : ℝ)
    (hdt : 0 < dt) (hrd : 0 ≤ cfg.maxPitchRate * dt)
    (h : max (-5) (min 90 raw) - last < -(cfg.maxPitchRate * dt)) :
    applyPitchConstraints cfg raw last dt = last - cfg.maxPitchRate * dt := by
  simp only [applyPitchConstraints, jsSign]
  rw [if_pos hdt]
  have hneg : max (-5 : ℝ) (min 90 raw) - last < 0 := by linarith
  have habs : |max (-5 : ℝ) (min 90 raw) - last| > cfg.maxPitchRate * dt := by
    rw [abs_of_neg hneg]; linarith
  rw [if_pos habs, if_neg (by linarith), if_pos hneg]
  ring

/-- CASE 0 of the vacuum ladder (guidance.js lines 518-531): periapsis
below ground with apoapsis within tolerance of target forces the
emergency phase with full throttle and a pitch command of
max(0, FPA - 15), regardless of everything else. -/
theorem vacuumCase0 (cfg : GuidanceConfig) (env : Env) (st : VehicleState)
    (dt : ℝ) (gs : GuidanceState) (hperi : env.orbit.periapsis < 0)
    (hapo : env.orbit.apoapsis - cfg.targetAltitude ≥ -1000) :
    vacuumGuidance cfg env st dt gs =
      ("emergency-raise-periapsis",
       max (-5) (min 90 (max 0 (flightPathAngleOf st - 15))), 1,
       { gs with isRetrograde := false, lastPeriapsis := env.orbit.periapsis }) := by
  simp only [vacuumGuidance]
  rw [if_pos (⟨hperi, hapo⟩ :
    env.orbit.periapsis < 0 ∧ env.orbit.apoapsis - cfg.targetAltitude ≥ -(1000 : ℝ))]

/-- C3 (amended): whenever the predicted orbit has periapsis < 0 and
apoapsis at least target − tolerance, computeGuidance above the
atmosphere limit returns phase "emergency-raise-periapsis" and throttle
1.0 regardless of any other condition; the commanded pitch before the
global constraints is max(0, FPA − 15) — i.e. 15° more horizontal than
the flight-path angle only when FPA ≥ 15 — and the returned pitch is that
value passed through the [-5, 90] clamp and the pitch-rate limiter. -/
theorem computeGuidance_emergency (cfg : GuidanceConfig) (env : Env) (st : VehicleState)
    (dt : ℝ) (gs : GuidanceState)
    (halt : ¬altitudeOf st < cfg.atmosphereLimit)
    (hperi : env.orbit.periapsis < 0)
    (hapo : env.orbit.apoapsis - cfg.targetAltitude ≥ -1000) :
    (computeGuidance cfg env st dt gs).1.phase = "emergency-raise-periapsis" ∧
    (computeGuidance cfg env st dt gs).1.throttle = 1 ∧
    (computeGuidance cfg env st dt gs).1.pitch =
      applyPitchConstraints cfg (max 0 (flightPathAngleOf st - 15))
        gs.lastCommandedPitch dt := by
  have hv := vacuumCase0 cfg env st dt gs hperi hapo
  refine ⟨?_, ?_, ?_⟩
  · rw [computeGuidance_phase_eq, if_neg halt, hv]
  · rw [computeGuidance_throttle_eq, if_neg halt, hv]
  · rw [computeGuidance_pitch_eq, if_neg halt, hv]
    exact applyPitchConstraints_clamp cfg _ _ _

/-- Vehicle state at 700 km altitude moving horizontally eastward. -/
def stC3 : VehicleState :=
  { x := 7071000, y := 0, vx := 0, vy := -1000, time := 2000, currentStage := 1,
    engineOn := true, burnMode := none, guidancePitch := none,
    guidanceThrottle := none, propellantRemaining := fun _ => 0,
    fairingJettisoned := true, karmanLogged := true }

/-- Oracle with a predicted orbit of apoapsis 700 km and periapsis
-100 m. -/
def envC3 : Env :=
  { airDensity := 0, airspeed := 0, gravity := 8, totalMass := 10000,
    remainingDeltaV := 0, orbit := ⟨7000000, 0.1, 700000, -100, false⟩,
    altitude := 700000, massFlowRate := 0, currentThrust := 0, drag := 0 }

theorem rOf_stC3 : rOf stC3 = 7071000 := by
  rw [rOf, show stC3.x * stC3.x + stC3.y * stC3.y = (7071000 : ℝ) ^ 2 by
    norm_num [stC3]]
  exact Real.sqrt_sq (by norm_num)

theorem altitude_stC3 : altitudeOf stC3 = 700000 := by
  rw [altitudeOf, rOf_stC3, EARTH_RADIUS]; norm_num

theorem fpa_stC3 : flightPathAngleOf stC3 = 0 :=
  eastbound_fpa stC3 (by norm_num [stC3]) (by norm_num [stC3]) (by norm_num [stC3])
    (by norm_num [stC3])

/-- C3 witness: the amended theorem applied at a concrete emergency
state. -/
theorem computeGuidance_emergency_witness :
    (computeGuidance GUIDANCE_CONFIG envC3 stC3 1 resetGuidance).1.phase =
      "emergency-raise-periapsis" ∧
    (computeGuidance GUIDANCE_CONFIG envC3 stC3 1 resetGuidance).1.throttle = 1 ∧
    (computeGuidance GUIDANCE_CONFIG envC3 stC3 1 resetGuidance).1.pitch =
      applyPitchConstraints GUIDANCE_CONFIG (max 0 (flightPathAngleOf stC3 - 15))
        resetGuidance.lastCommandedPitch 1 :=
  computeGuidance_emergency GUIDANCE_CONFIG envC3 stC3 1 resetGuidance
    (by rw [altitude_stC3]; norm_num [GUIDANCE_CONFIG])
    (by norm_num [envC3]) (by norm_num [envC3, GUIDANCE_CONFIG])

/-- C3 counterexample: at stC3/envC3 the emergency conditions hold and the
phase is "emergency-raise-periapsis", but the returned pitch is 88°
(rate-limited from the previous command of 90°), not the claimed
FPA − 15 = −15°. -/
theorem computeGuidance_emergency_pitch_cex :
    (computeGuidance GUIDANCE_CONFIG envC3 stC3 1 resetGuidance).1.phase =
      "emergency-raise-periapsis" ∧
    ¬(computeGuidance GUIDANCE_CONFIG envC3 stC3 1 resetGuidance).1.pitch =
      flightPathAngleOf stC3 - 15 := by
  have halt : ¬altitudeOf stC3 < GUIDANCE_CONFIG.atmosphereLimit := by
    rw [altitude_stC3]; norm_num [GUIDANCE_CONFIG]
  have hv := vacuumCase0 GUIDANCE_CONFIG envC3 stC3 1 resetGuidance
    (by norm_num [envC3]) (by norm_num [envC3, GUIDANCE_CONFIG])
  constructor
  · rw [computeGuidance_phase_eq, if_neg halt, hv]
  · rw [computeGuidance_pitch_eq, if_neg halt, hv, fpa_stC3]
    have h88 : applyPitchConstraints GUIDANCE_CONFIG
        (max (-5) (min 90 (max 0 ((0 : ℝ) - 15)))) resetGuidance.lastCommandedPitch 1 = 88 := by
      rw [applyPitchConstraints_clamp,
        applyPitchConstraints_down GUIDANCE_CONFIG _ _ _ (by norm_num)
          (by norm_num [GUIDANCE_CONFIG])
          (by norm_num [GUIDANCE_CONFIG, resetGuidance, min_def, max_def]),
        resetGuidance, GUIDANCE_CONFIG]
      norm_num
    rw [h88]
    norm_num

/-- The max-q sub-case of the atmospheric branch (guidance.js
lines 127-132). -/
theorem atmosphericMaxQ (cfg : GuidanceConfig) (env : Env) (st : VehicleState)
    (dt : ℝ) (gs : GuidanceState)
    (h1 : ¬st.time < cfg.pitchKickStart) (h2 : ¬st.time < cfg.pitchKickEnd)
    (hq : 0.5 * env.airDensity * env.airspeed * env.airspeed > cfg.maxQ * 0.8) :
    atmosphericGuidance cfg env st dt gs = ("max-q-protection", flightPathAngleOf st, 1, gs) := by
  simp only [atmosphericGuidance]
  rw [if_neg h1, if_neg h2, if_pos hq]

/-- C5 (amended): below the atmosphere limit, past the pitch-kick window
(time ≥ pitchKickEnd), dynamic pressure above 0.8 · maxQ forces phase
"max-q-protection"; the commanded pitch before the global constraints is
exactly the flight-path angle, and the returned pitch is that value after
the [-5, 90] clamp and the pitch-rate limiter. -/
theorem computeGuidance_maxQ (env : Env) (st : VehicleState) (dt : ℝ) (gs : GuidanceState)
    (halt : altitudeOf st < GUIDANCE_CONFIG.atmosphereLimit)
    (htime : 15 ≤ st.time)
    (hq : 0.5 * env.airDensity * env.airspeed * env.airspeed > GUIDANCE_CONFIG.maxQ * 0.8) :
    (computeGuidance GUIDANCE_CONFIG env st dt gs).1.phase = "max-q-protection" ∧
    (computeGuidance GUIDANCE_CONFIG env st dt gs).1.pitch =
      applyPitchConstraints GUIDANCE_CONFIG (flightPathAngleOf st)
        gs.lastCommandedPitch dt := by
  have h1 : ¬st.time < GUIDANCE_CONFIG.pitchKickStart := by
    rw [GUIDANCE_CONFIG]; push_neg; linarith
  have h2 : ¬st.time < GUIDANCE_CONFIG.pitchKickEnd := by
    rw [GUIDANCE_CONFIG]; push_neg; linarith
  have ha := atmosphericMaxQ GUIDANCE_CONFIG env st dt gs h1 h2 hq
  constructor
  · rw [computeGuidance_phase_eq, if_pos halt, ha]
  · rw [computeGuidance_pitch_eq, if_pos halt, ha]

/-- Vehicle state at 20 km altitude moving horizontally eastward, 20 s
into flight. -/
def stC5 : VehicleState :=
  { x := 6391000, y := 0, vx := 0, vy := -1000, time := 20, currentStage := 0,
    engineOn := true, burnMode := none, guidancePitch := none,
    guidanceThrottle := none, propellantRemaining := fun _ => 0,
    fairingJettisoned := false, karmanLogged := false }

/-- Oracle with dynamic pressure 45 kPa (above 0.8 · maxQ = 28 kPa). -/
def envC5 : Env :=
  { airDensity := 1, airspeed := 300, gravity := 9.7, totalMass := 500000,
    remainingDeltaV := 0, orbit := ⟨0, 0, 0, 0, false⟩, altitude := 20000,
    massFlowRate := 0, currentThrust := 0, drag := 0 }

theorem rOf_stC5 : rOf stC5 = 6391000 := by
  rw [rOf, show stC5.x * stC5.x + stC5.y * stC5.y = (6391000 : ℝ) ^ 2 by
    norm_num [stC5]]
  exact Real.sqrt_sq (by norm_num)

theorem altitude_stC5 : altitudeOf stC5 = 20000 := by
  rw [altitudeOf, rOf_stC5, EARTH_RADIUS]; norm_num

theorem fpa_stC5 : flightPathAngleOf stC5 = 0 :=
  eastbound_fpa stC5 (by norm_num [stC5]) (by norm_num [stC5]) (by norm_num [stC5])
    (by norm_num [stC5])

/-- C5 witness: the amended theorem applied at a concrete max-q state. -/
theorem computeGuidance_maxQ_witness :
    (computeGuidance GUIDANCE_CONFIG envC5 stC5 1 resetGuidance).1.phase =
      "max-q-protection" ∧
    (computeGuidance GUIDANCE_CONFIG envC5 stC5 1 resetGuidance).1.pitch =
      applyPitchConstraints GUIDANCE_CONFIG (flightPathAngleOf stC5)
        resetGuidance.lastCommandedPitch 1 :=
  computeGuidance_maxQ envC5 stC5 1 resetGuidance
    (by rw [altitude_stC5]; norm_num [GUIDANCE_CONFIG])
    (by norm_num [stC5])
    (by norm_num [envC5, GUIDANCE_CONFIG])

/-- C5 counterexample: at stC5/envC5 the max-q conditions hold and the
phase is "max-q-protection", but the returned pitch is 88° (rate-limited
from the previous command of 90°), not the flight-path angle 0°. -/
theorem computeGuidance_maxQ_pitch_cex :
    (computeGuidance GUIDANCE_CONFIG envC5 stC5 1 resetGuidance).1.phase =
      "max-q-protection" ∧
    ¬(computeGuidance GUIDANCE_CONFIG envC5 stC5 1 resetGuidance).1.pitch =
      flightPathAngleOf stC5 := by
  have halt : altitudeOf stC5 < GUIDANCE_CONFIG.atmosphereLimit := by
    rw [altitude_stC5]; norm_num [GUIDANCE_CONFIG]
  have ha := atmosphericMaxQ GUIDANCE_CONFIG envC5 stC5 1 resetGuidance
    (by norm_num [stC5, GUIDANCE_CONFIG]) (by norm_num [stC5, GUIDANCE_CONFIG])
    (by norm_num [envC5, GUIDANCE_CONFIG])
  constructor
  · rw [computeGuidance_phase_eq, if_pos halt, ha]
  · rw [computeGuidance_pitch_eq, if_pos halt, ha, fpa_stC5]
    have h88 : applyPitchConstraints GUIDANCE_CONFIG (0 : ℝ)
        resetGuidance.lastCommandedPitch 1 = 88 := by
      rw [applyPitchConstraints_down GUIDANCE_CONFIG _ _ _ (by norm_num)
          (by norm_num [GUIDANCE_CONFIG])
          (by norm_num [GUIDANCE_CONFIG, resetGuidance, min_def, max_def]),
        resetGuidance, GUIDANCE_CONFIG]
      norm_num
    rw [h88]
    norm_num

/-!  C4: behaviour of the latched circularization burn timestamp. -/

/-- Above the atmosphere, calculateBurnEvents is the concatenation of the
two blocks with their respective latch updates. -/
theorem calculateBurnEvents_above (cfg : GuidanceConfig) (env : Env) (st : VehicleState)
    (lc lr : Option ℝ) (halt : ¬env.altitude < cfg.atmosphereLimit) :
    calculateBurnEvents cfg env st lc lr =
      ((traditionalBlock cfg env st lc).1 ++ (retroBlock cfg env st lr).1,
       (traditionalBlock cfg env st lc).2, (retroBlock cfg env st lr).2) := by
  simp only [calculateBurnEvents]
  rw [if_neg halt]

/-- With the latch already set and the countdown still positive, the
coasting sub-branch keeps the latch and reports the countdown as the
latched timestamp minus the current time (when within the horizon). -/
theorem circCoastingStep_latched_pos (env : Env) (st : VehicleState) (bt t0 : ℝ)
    (h : 0 < t0 - st.time) :
    (circCoastingStep env st bt (some t0)).2 = some t0 ∧
    (t0 - st.time < 10000 →
      (circCoastingStep env st bt (some t0)).1 =
        [⟨t0 - st.time, "Circularization burn start", "circularization", 0, 0⟩]) := by
  simp only [circCoastingStep, circCoastLatch]
  rw [if_neg (by linarith : ¬t0 - st.time ≤ 0)]
  by_cases h2 : t0 - st.time < 10000
  · rw [if_pos h2]; exact ⟨rfl, fun _ => rfl⟩
  · rw [if_neg h2]; exact ⟨rfl, fun hc => absurd hc h2⟩

/-- With the latch already set and the countdown elapsed, the coasting
sub-branch clears the latch and reports nothing. -/
theorem circCoastingStep_elapsed (env : Env) (st : VehicleState) (bt t0 : ℝ)
    (h : t0 - st.time ≤ 0) :
    circCoastingStep env st bt (some t0) = ([], none) := by
  simp only [circCoastingStep, circCoastLatch]
  rw [if_pos h]

/-- The coasting sub-branch never replaces a set latch by a different
value: it keeps it or clears it. -/
theorem circCoastingStep_latched_or (env : Env) (st : VehicleState) (bt t0 : ℝ) :
    (circCoastingStep env st bt (some t0)).2 = some t0 ∨
    (circCoastingStep env st bt (some t0)).2 = none := by
  rcases le_or_lt (t0 - st.time) 0 with h | h
  · right; rw [circCoastingStep_elapsed env st bt t0 h]
  · left; exact (circCoastingStep_latched_pos env st bt t0 h).1

/-- The thrusting sub-branch never replaces a set latch by a different
value: it keeps it or clears it. -/
theorem circThrustingStep_latched_or (env : Env) (st : VehicleState) (bt t0 : ℝ) :
    (circThrustingStep env st bt (some t0)).2 = some t0 ∨
    (circThrustingStep env st bt (some t0)).2 = none := by
  simp only [circThrustingStep, circThrustLatch]
  split_ifs <;> simp

/-- The traditional block never replaces a set latch by a different
value. -/
theorem traditionalBlock_latched_or (cfg : GuidanceConfig) (env : Env) (st : VehicleState)
    (t0 : ℝ) :
    (traditionalBlock cfg env st (some t0)).2 = some t0 ∨
    (traditionalBlock cfg env st (some t0)).2 = none := by
  simp only [traditionalBlock]
  split_ifs with h1 h2 h3
  · exact circCoastingStep_latched_or env st _ t0
  · exact circThrustingStep_latched_or env st _ t0
  · left; rfl
  · right; rfl

/-- C4 (amended): for the traditional circularization path the absolute
burn-start timestamp is computed only when the latch is null, so a set
latch is only ever kept or cleared, never recomputed; while the phase
conditions hold with the coasting guard satisfied and the countdown
positive, the latch is unchanged and the reported event time is the
latched timestamp minus the current time; the latch is cleared when the
phase conditions fail or when the evaluated countdown reaches zero or
below — but only on calls that proceed past the atmosphere check and into
a sub-branch whose guard holds: below the atmosphere limit (and likewise
when no sub-branch guard holds) the call leaves the latch untouched. -/
theorem circLatch_behavior (cfg : GuidanceConfig) (env : Env) (st : VehicleState)
    (lr : Option ℝ) (t0 : ℝ) :
    ((calculateBurnEvents cfg env st (some t0) lr).2.1 = some t0 ∨
      (calculateBurnEvents cfg env st (some t0) lr).2.1 = none) ∧
    (env.altitude < cfg.atmosphereLimit →
      (calculateBurnEvents cfg env st (some t0) lr).2.1 = some t0) ∧
    (¬env.altitude < cfg.atmosphereLimit → ¬tradTrigger cfg env st →
      (calculateBurnEvents cfg env st (some t0) lr).2.1 = none) ∧
    (¬env.altitude < cfg.atmosphereLimit → tradTrigger cfg env st →
      ¬st.engineOn = true → vVerticalOf st > 0 → env.orbit.apoapsis - env.altitude > 0 →
      0 < t0 - st.time →
      ((calculateBurnEvents cfg env st (some t0) lr).2.1 = some t0 ∧
        (t0 - st.time < 10000 →
          (⟨t0 - st.time, "Circularization burn start", "circularization", 0, 0⟩ : BurnEvent) ∈
            (calculateBurnEvents cfg env st (some t0) lr).1))) ∧
    (¬env.altitude < cfg.atmosphereLimit → tradTrigger cfg env st →
      ¬st.engineOn = true → vVerticalOf st > 0 → env.orbit.apoapsis - env.altitude > 0 →
      t0 - st.time ≤ 0 →
      (calculateBurnEvents cfg env st (some t0) lr).2.1 = none) := by
  refine ⟨?_, ?_, ?_, ?_, ?_⟩
  · by_cases halt : env.altitude < cfg.atmosphereLimit
    · left
      simp only [calculateBurnEvents]
      rw [if_pos halt]
    · rw [calculateBurnEvents_above cfg env st (some t0) lr halt]
      exact traditionalBlock_latched_or cfg env st t0
  · intro halt
    simp only [calculateBurnEvents]
    rw [if_pos halt]
  · intro halt htrig
    rw [calculateBurnEvents_above cfg env st (some t0) lr halt]
    show (traditionalBlock cfg env st (some t0)).2 = none
    simp only [traditionalBlock]
    rw [if_neg htrig]
  · intro halt htrig heng hvv hapo hpos
    rw [calculateBurnEvents_above cfg env st (some t0) lr halt]
    have hroute : traditionalBlock cfg env st (some t0) =
        circCoastingStep env st (circBurnTimeOf env st) (some t0) := by
      simp only [traditionalBlock]
      rw [if_pos htrig, if_pos ⟨heng, hvv, hapo⟩]
    obtain ⟨hl, hev⟩ := circCoastingStep_latched_pos env st (circBurnTimeOf env st) t0 hpos
    refine ⟨by rw [hroute]; exact hl, fun hhor => ?_⟩
    show _ ∈ (traditionalBlock cfg env st (some t0)).1 ++ (retroBlock cfg env st lr).1
    rw [hroute, hev hhor]
    exact List.mem_append_left _ (List.mem_singleton_self _)
  · intro halt htrig heng hvv hapo hneg
    rw [calculateBurnEvents_above cfg env st (some t0) lr halt]
    show (traditionalBlock cfg env st (some t0)).2 = none
    simp only [traditionalBlock]
    rw [if_pos htrig, if_pos ⟨heng, hvv, hapo⟩,
      circCoastingStep_elapsed env st (circBurnTimeOf env st) t0 hneg]

/-- Coasting vehicle at 100 km used by the C4 witness. -/
def stC4w : VehicleState :=
  { x := 6471000, y := 0, vx := 100, vy := 0, time := 2000, currentStage := 1,
    engineOn := false, burnMode := none, guidancePitch := none,
    guidanceThrottle := none, propellantRemaining := fun _ => 0,
    fairingJettisoned := true, karmanLogged := true }

/-- Oracle for the C4 witness: apoapsis 720 km, periapsis 100 km. -/
def envC4w : Env :=
  { airDensity := 0, airspeed := 0, gravity := 9, totalMass := 20000,
    remainingDeltaV := 0, orbit := ⟨7000000, 0.05, 720000, 100000, false⟩,
    altitude := 100000, massFlowRate := 0, currentThrust := 0, drag := 0 }

theorem vVert_stC4w : vVerticalOf stC4w = 100 := by
  have hr : rOf stC4w = 6471000 := by
    rw [rOf, show stC4w.x * stC4w.x + stC4w.y * stC4w.y = (6471000 : ℝ) ^ 2 by
      norm_num [stC4w]]
    exact Real.sqrt_sq (by norm_num)
  simp only [vVerticalOf, localUpOf, hr]
  norm_num [stC4w]

/-- C4 witness: the amended theorem applied on a latched coasting tick
with 500 s of countdown left. -/
theorem circLatch_behavior_witness :
    (calculateBurnEvents GUIDANCE_CONFIG envC4w stC4w (some 2500) none).2.1 = some 2500 ∧
    ((2500 : ℝ) - stC4w.time < 10000 →
      (⟨(2500 : ℝ) - stC4w.time, "Circularization burn start", "circularization", 0, 0⟩ :
          BurnEvent) ∈
        (calculateBurnEvents GUIDANCE_CONFIG envC4w stC4w (some 2500) none).1) :=
  (circLatch_behavior GUIDANCE_CONFIG envC4w stC4w none 2500).2.2.2.1
    (by norm_num [envC4w, GUIDANCE_CONFIG])
    ⟨by rintro (h | ⟨-, -, h⟩) <;> norm_num [GUIDANCE_CONFIG, envC4w] at h,
     by norm_num [stC4w], by norm_num [envC4w, GUIDANCE_CONFIG],
     by norm_num [envC4w, GUIDANCE_CONFIG]⟩
    (by norm_num [stC4w]) (by rw [vVert_stC4w]; norm_num)
    (by norm_num [envC4w]) (by norm_num [stC4w])

/-- Pad-time state with the mission clock at 2000 s, used by the C4
counterexample. -/
def stC4 : VehicleState :=
  { x := EARTH_RADIUS, y := 0, vx := 0, vy := 0, time := 2000, currentStage := 0,
    engineOn := false, burnMode := none, guidancePitch := none,
    guidanceThrottle := none, propellantRemaining := fun _ => 0,
    fairingJettisoned := false, karmanLogged := false }

/-- C4 counterexample: with the vehicle below the atmosphere limit the
triggering conditions certainly do not hold and the latched countdown
(5 − 2000 s) has long elapsed, yet calculateBurnEvents returns without
clearing the latch — refuting the claim that the latch is cleared exactly
when the conditions stop holding or the countdown reaches zero. -/
theorem circLatch_not_cleared_cex :
    baseEnv.altitude < GUIDANCE_CONFIG.atmosphereLimit ∧
    (5 : ℝ) - stC4.time ≤ 0 ∧
    (calculateBurnEvents GUIDANCE_CONFIG baseEnv stC4 (some 5) none).2.1 = some 5 := by
  refine ⟨by norm_num [baseEnv, GUIDANCE_CONFIG], by norm_num [stC4], ?_⟩
  simp only [calculateBurnEvents]
  rw [if_pos (by norm_num [baseEnv, GUIDANCE_CONFIG])]

/-!  C7: the next-event query. -/

/-- Events pushed by the coasting sub-branch have times in (0, 10000). -/
theorem circCoastingStep_mem_time (env : Env) (st : VehicleState) (bt : ℝ)
    (lc : Option ℝ) (b : BurnEvent) (hb : b ∈ (circCoastingStep env st bt lc).1) :
    0 < b.time ∧ b.time < 10000 := by
  simp only [circCoastingStep] at hb
  rcases hL : circCoastLatch env st bt lc with _ | t0 <;> rw [hL] at hb
  · simp at hb
  · dsimp only [] at hb
    split_ifs at hb with h1 h2
    · simp at hb
    · simp at hb
      subst hb
      exact ⟨not_le.mp h1, h2⟩
    · simp at hb

/-- Events pushed by the thrusting sub-branch have times in (0, 10000). -/
theorem circThrustingStep_mem_time (env : Env) (st : VehicleState) (bt : ℝ)
    (lc : Option ℝ) (b : BurnEvent) (hb : b ∈ (circThrustingStep env st bt lc).1) :
    0 < b.time ∧ b.time < 10000 := by
  simp only [circThrustingStep] at hb
  rcases hL : circThrustLatch env st bt lc with _ | t0 <;> rw [hL] at hb
  · simp at hb
  · dsimp only [] at hb
    split_ifs at hb with h1 h2
    · simp at hb
      subst hb
      exact h1
    · simp at hb
    · simp at hb

/-- Events pushed by the traditional block have times in (0, 10000). -/
theorem traditionalBlock_mem_time (cfg : GuidanceConfig) (env : Env) (st : VehicleState)
    (lc : Option ℝ) (b : BurnEvent) (hb : b ∈ (traditionalBlock cfg env st lc).1) :
    0 < b.time ∧ b.time < 10000 := by
  simp only [traditionalBlock] at hb
  split_ifs at hb with h1 h2 h3
  · exact circCoastingStep_mem_time env st _ lc b hb
  · exact circThrustingStep_mem_time env st _ lc b hb
  · simp at hb
  · simp at hb

/-- Events pushed by the retrograde block have times in (0, 10000). -/
theorem retroBlock_mem_time (cfg : GuidanceConfig) (env : Env) (st : VehicleState)
    (lr : Option ℝ) (b : BurnEvent) (hb : b ∈ (retroBlock cfg env st lr).1) :
    0 < b.time ∧ b.time < 10000 := by
  simp only [retroBlock] at hb
  split at hb
  · rcases hL : retroLatch cfg env st lr with _ | t0 <;> rw [hL] at hb
    · simp at hb
    · simp only [] at hb
      split_ifs at hb with h1 h2
      · simp at hb
        subst hb
        exact h1
      · simp at hb
      · simp at hb
  · simp at hb

/-- All scheduled burn events lie strictly inside the (0, 10000) s
horizon. -/
theorem burnEvents_time_bounds (cfg : GuidanceConfig) (env : Env) (st : VehicleState)
    (lc lr : Option ℝ) (b : BurnEvent)
    (hb : b ∈ (calculateBurnEvents cfg env st lc lr).1) :
    0 < b.time ∧ b.time < 10000 := by
  simp only [calculateBurnEvents] at hb
  split at hb
  · simp at hb
  · rcases List.mem_append.1 hb with h | h
    · exact traditionalBlock_mem_time cfg env st lc b h
    · exact retroBlock_mem_time cfg env st lr b h

/-- Every forecast event has a strictly positive time-until value. -/
theorem forecastEvents_pos (cfg : GuidanceConfig) (env : Env) (st : VehicleState)
    (lc lr : Option ℝ) (e : NEvent) (he : e ∈ forecastEvents cfg env st lc lr) :
    0 < e.time := by
  simp only [forecastEvents, List.mem_append] at he
  rcases he with ((((((h | h) | h) | h) | h) | h) | h)
  · split_ifs at h with h1
    · simp at h
      subst h
      simp only []
      linarith
    · simp at h
  · split_ifs at h with h1 h2
    · rcases hc : calculateTimeToAltitude env st env.altitude KARMAN_LINE (vVerticalOf st)
        with _ | t <;> rw [hc] at h
      · simp at h
      · dsimp only [] at h
        split_ifs at h with h3
        · simp at h
          subst h
          exact h3.1
        · simp at h
    · simp at h
    · simp at h
  · split_ifs at h with h1 h2
    · rcases hc : calculateTimeToAltitude env st env.altitude
          ROCKET_CONFIG.fairingJettisonAlt (vVerticalOf st) with _ | t <;> rw [hc] at h
      · simp at h
      · dsimp only [] at h
        split_ifs at h with h3
        · simp at h
          subst h
          exact h3.1
        · simp at h
    · simp at h
    · simp at h
  · split_ifs at h with h1 h2 h3
    · simp at h
      subst h
      exact h3.1
    · simp at h
    · simp at h
    · simp at h
  · rcases hc : calculateTimeToAltitude env st env.altitude 150000 (vVerticalOf st)
        with _ | t <;> rw [hc] at h
    · split_ifs at h <;> simp at h
    · dsimp only [] at h
      split_ifs at h with h1 h2 h3 h4 h5 <;> simp at h
      · subst h
        exact lt_of_lt_of_le h3.1 (le_max_left _ _)
      · subst h
        exact h3.1
      · subst h
        exact h3.1
  · split_ifs at h with h1 h2 h3
    · simp at h
      subst h
      exact h3.1
    · simp at h
    · simp at h
    · simp at h
  · rcases List.mem_map.1 h with ⟨b, hb, rfl⟩
    exact (burnEvents_time_bounds cfg env st lc lr b hb).1

/-- With a nonnegative mission clock, every forecast event other than
"Orbit" lies strictly within the 10000 s horizon. -/
theorem forecastEvents_horizon (cfg : GuidanceConfig) (env : Env) (st : VehicleState)
    (lc lr : Option ℝ) (ht : 0 ≤ st.time) (e : NEvent)
    (he : e ∈ forecastEvents cfg env st lc lr) :
    e.name = "Orbit" ∨ e.time < 10000 := by
  simp only [forecastEvents, List.mem_append] at he
  rcases he with ((((((h | h) | h) | h) | h) | h) | h)
  · split_ifs at h with h1
    · simp at h
      subst h
      right
      simp only []
      linarith
    · simp at h
  · split_ifs at h with h1 h2
    · rcases hc : calculateTimeToAltitude env st env.altitude KARMAN_LINE (vVerticalOf st)
        with _ | t <;> rw [hc] at h
      · simp at h
      · dsimp only [] at h
        split_ifs at h with h3
        · simp at h
          subst h
          exact Or.inr h3.2
        · simp at h
    · simp at h
    · simp at h
  · split_ifs at h with h1 h2
    · rcases hc : calculateTimeToAltitude env st env.altitude
          ROCKET_CONFIG.fairingJettisonAlt (vVerticalOf st) with _ | t <;> rw [hc] at h
      · simp at h
      · dsimp only [] at h
        split_ifs at h with h3
        · simp at h
          subst h
          exact Or.inr h3.2
        · simp at h
    · simp at h
    · simp at h
  · split_ifs at h with h1 h2 h3
    · simp at h
      subst h
      exact Or.inr h3.2
    · simp at h
    · simp at h
    · simp at h
  · rcases hc : calculateTimeToAltitude env st env.altitude 150000 (vVerticalOf st)
        with _ | t <;> rw [hc] at h
    · split_ifs at h <;> simp at h
    · dsimp only [] at h
      split_ifs at h with h1 h2 h3 h4 h5 <;> simp at h
      · subst h
        exact Or.inl rfl
      · subst h
        exact Or.inl rfl
      · subst h
        exact Or.inl rfl
  · split_ifs at h with h1 h2 h3
    · simp at h
      subst h
      exact Or.inr h3.2
    · simp at h
    · simp at h
    · simp at h
  · rcases List.mem_map.1 h with ⟨b, hb, rfl⟩
    exact Or.inr (burnEvents_time_bounds cfg env st lc lr b hb).2

/-- C7 (amended): getNextEvent returns the first forecast event of
minimal time-until value, or none exactly when nothing is forecast; every
returned event has strictly positive time, and — given a nonnegative
mission clock — every forecast event except the "Orbit" event lies
strictly within the 10000 s horizon.  The "Orbit" event's time is
max(time-to-150km, time-to-burnout) and is not checked against the
horizon, so it may exceed 10000 s (see the counterexample). -/
theorem getNextEvent_minimal (cfg : GuidanceConfig) (env : Env) (st : VehicleState)
    (lc lr : Option ℝ) (ht : 0 ≤ st.time) :
    (∀ ev : NEvent, (getNextEvent cfg env st lc lr).1 = some ev →
      ev ∈ forecastEvents cfg env st lc lr ∧
      (∀ e ∈ forecastEvents cfg env st lc lr, ev.time ≤ e.time) ∧ 0 < ev.time) ∧
    ((getNextEvent cfg env st lc lr).1 = none ↔ forecastEvents cfg env st lc lr = []) ∧
    (∀ e ∈ forecastEvents cfg env st lc lr, e.name = "Orbit" ∨ e.time < 10000) := by
  refine ⟨?_, ?_, fun e he => forecastEvents_horizon cfg env st lc lr ht e he⟩
  · intro ev hev
    have hmem : ev ∈ List.argmin NEvent.time (forecastEvents cfg env st lc lr) := hev
    exact ⟨List.argmin_mem hmem,
      fun e he => List.le_of_mem_argmin he hmem,
      forecastEvents_pos cfg env st lc lr ev (List.argmin_mem hmem)⟩
  · exact List.argmin_eq_none

/-- C7 witness: the none-iff-empty part of the theorem at a concrete pad
state. -/
theorem getNextEvent_minimal_witness :
    (getNextEvent GUIDANCE_CONFIG baseEnv baseState none none).1 = none ↔
      forecastEvents GUIDANCE_CONFIG baseEnv baseState none none = [] :=
  (getNextEvent_minimal GUIDANCE_CONFIG baseEnv baseState none none
    (by norm_num [baseState])).2.1

/-- Thrusting second-stage vehicle at 120 km, climbing at 100 m/s, with
20000 kg of propellant burning at 1 kg/s. -/
def stC7 : VehicleState :=
  { x := 6491000, y := 0, vx := 100, vy := 0, time := 100, currentStage := 1,
    engineOn := true, burnMode := some "prograde", guidancePitch := none,
    guidanceThrottle := none, propellantRemaining := fun _ => 20000,
    fairingJettisoned := true, karmanLogged := true }

/-- Oracle for the C7 counterexample: thrust balancing gravity exactly,
mass-flow-rate 1 kg/s. -/
def envC7 : Env :=
  { airDensity := 0, airspeed := 0, gravity := 10, totalMass := 100,
    remainingDeltaV := 0, orbit := ⟨1, 0, 0, 0, false⟩, altitude := 120000,
    massFlowRate := 1, currentThrust := 1000, drag := 0 }

theorem vVert_stC7 : vVerticalOf stC7 = 100 := by
  have hr : rOf stC7 = 6491000 := by
    rw [rOf, show stC7.x * stC7.x + stC7.y * stC7.y = (6491000 : ℝ) ^ 2 by
      norm_num [stC7]]
    exact Real.sqrt_sq (by norm_num)
  simp only [vVerticalOf, localUpOf, hr]
  norm_num [stC7]

/-- The kinematic forecast to 150 km at stC7: thrust cancels gravity, so
the 30 km gap is covered at the constant 100 m/s in 300 s. -/
theorem ttAlt_stC7 : calculateTimeToAltitude envC7 stC7 (120000 : ℝ) 150000 100 = some 300 := by
  have e1 : Real.sqrt (42133081000000 : ℝ) = 6491000 := by
    rw [show (42133081000000 : ℝ) = 6491000 ^ 2 by norm_num]
    exact Real.sqrt_sq (by norm_num)
  have e2 : Real.sqrt (10000 : ℝ) = 100 := by
    rw [show (10000 : ℝ) = 100 ^ 2 by norm_num]
    exact Real.sqrt_sq (by norm_num)
  norm_num [calculateTimeToAltitude, stC7, envC7, ROCKET_CONFIG, e1, e2]

theorem cbe_stC7 : calculateBurnEvents GUIDANCE_CONFIG envC7 stC7 none none = ([], none, none) := by
  rw [calculateBurnEvents_above GUIDANCE_CONFIG envC7 stC7 none none
    (by norm_num [envC7, GUIDANCE_CONFIG])]
  rw [traditionalBlock_before1500 GUIDANCE_CONFIG envC7 stC7 none (by norm_num [stC7])]
  have hretro : retroBlock GUIDANCE_CONFIG envC7 stC7 none = ([], none) := by
    simp only [retroBlock]
    rw [if_neg]
    rintro ⟨hp, -⟩
    norm_num [envC7, GUIDANCE_CONFIG] at hp
  rw [hretro]
  rfl

/-- At stC7/envC7 the only forecast event is "Orbit", whose time is
max(time-to-150km, time-to-burnout) = max(300, 20000) = 20000 s. -/
theorem forecast_stC7 :
    forecastEvents GUIDANCE_CONFIG envC7 stC7 none none =
      [⟨20000, "Orbit"⟩] := by
  simp only [forecastEvents]
  rw [cbe_stC7, vVert_stC7, show envC7.altitude = 120000 from rfl, ttAlt_stC7]
  norm_num [stC7, envC7, KARMAN_LINE, ROCKET_CONFIG, max_def]

/-- C7 counterexample: getNextEvent returns the "Orbit" event with a
time-until of 20000 s, outside the claimed 10000-second horizon — the
burnout component of the "Orbit" event time is never checked against the
horizon. -/
theorem getNextEvent_orbit_horizon_cex :
    (getNextEvent GUIDANCE_CONFIG envC7 stC7 none none).1 =
      some ⟨20000, "Orbit"⟩ ∧ ¬(20000 : ℝ) ≤ 10000 := by
  constructor
  · show List.argmin NEvent.time (forecastEvents GUIDANCE_CONFIG envC7 stC7 none none) = _
    rw [forecast_stC7]
    rfl
  · norm_num

end Rocket
